import Mathlib

/-!
Verification of the NutriPlan AI-plan-generation and response-validation
pipeline (src/lib/gemini.ts, with the caller fragment in
src/pages/DietPlans.tsx).

The embedding models JavaScript runtime values flowing through the pipeline
as a `JsonValue` inductive (JSON.parse output is untyped at runtime), strings
as `List Char` where character-level scanning matters, and JS numbers as
exact rationals.  The external Gemini transport (fetch plus envelope checks)
is modelled by an oracle parameter `net : Except String String` giving the
outcome of everything after the API-key check in `makeRequest`.
-/

namespace NutriPlan

set_option maxRecDepth 100000

/-- Untyped JSON runtime value, as produced by `JSON.parse`. -/
inductive JsonValue where
  | null : JsonValue
  | bool : Bool → JsonValue
  | num : ℚ → JsonValue
  | str : String → JsonValue
  | arr : List JsonValue → JsonValue
  | obj : List (String × JsonValue) → JsonValue

/-- JavaScript truthiness of a JSON value (`!v` is `¬ jsTruthy v`).
Objects and arrays are always truthy; `null`, `false`, `0` and `""` are falsy. -/
def jsTruthy : JsonValue → Bool
  | .null => false
  | .bool b => b
  | .num q => q ≠ 0
  | .str s => s ≠ ""
  | .arr _ => true
  | .obj _ => true

/-- `typeof v === 'object'` for a JSON value: true for `null`, arrays and
objects, false for booleans, numbers and strings. -/
def typeofIsObject : JsonValue → Bool
  | .null => true
  | .arr _ => true
  | .obj _ => true
  | _ => false

/-- Property lookup on an object field list; JS objects built by `JSON.parse`
keep the last occurrence of a duplicated key, hence the fold keeping the
latest match.  Returns `none` (undefined) when absent. -/
def lookupLast (fields : List (String × JsonValue)) (key : String) : Option JsonValue :=
  fields.foldl (fun acc p => if p.1 = key then some p.2 else acc) none

/-- `v.key` property access: only objects have (string-keyed) fields;
anything else yields undefined (`none`). -/
def getField (v : JsonValue) (key : String) : Option JsonValue :=
  match v with
  | .obj fields => lookupLast fields key
  | _ => none

/-- Truthiness of a possibly-undefined property (`!x` on a field access). -/
def optTruthy : Option JsonValue → Bool
  | none => false
  | some v => jsTruthy v

/-- `Array.isArray(x)` on a possibly-undefined property, returning the
element list when it is an array. -/
def asArray : Option JsonValue → Option (List JsonValue)
  | some (.arr xs) => some xs
  | _ => none

/-- The per-meal check of `GeminiAPI.validateDietPlanStructure`
(gemini.ts line 553): `!meal || !meal.name || !meal.mealType ||
typeof meal.calories !== 'number'` fails the meal. -/
def mealFieldsOk (meal : JsonValue) : Bool :=
  jsTruthy meal &&
  optTruthy (getField meal "name") &&
  optTruthy (getField meal "mealType") &&
  (match getField meal "calories" with
   | some (.num _) => true
   | _ => false)

/-- The per-day check of `validateDietPlanStructure` (gemini.ts line 536):
the day is truthy, `day.meals` is a truthy non-empty array, and every meal
in it passes `mealFieldsOk`. -/
def dayOk (day : JsonValue) : Bool :=
  jsTruthy day &&
  (match asArray (getField day "meals") with
   | some ms => decide (0 < ms.length) && ms.all mealFieldsOk
   | none => false)

/-- `GeminiAPI.validateDietPlanStructure` (gemini.ts lines 498-563):
the plan is a truthy value of typeof object, `plan.meals` is an array of
length exactly 7, and every day passes `dayOk`.  Any single violation
returns `false` for the whole plan. -/
def validateDietPlanStructure (dietPlan : JsonValue) : Bool :=
  jsTruthy dietPlan &&
  typeofIsObject dietPlan &&
  (match asArray (getField dietPlan "meals") with
   | some days => decide (days.length = 7) && days.all dayOk
   | none => false)

/-- JSON whitespace characters (the subset relevant to this pipeline). -/
def isJsonWs (c : Char) : Bool := c = ' ' || c = '\n' || c = '\t' || c = '\r'

/-- Body of a JSON string literal after the opening quote: returns the
decoded characters and the remainder after the closing quote.  Models the
escape handling of `JSON.parse` for the escapes this pipeline can meet
(the `\uXXXX` form is not modelled). -/
def parseStringBody : List Char → Option (List Char × List Char)
  | [] => none
  | '"' :: rest => some ([], rest)
  | '\\' :: e :: rest =>
    let esc : Option Char :=
      if e = '"' then some '"'
      else if e = '\\' then some '\\'
      else if e = '/' then some '/'
      else if e = 'n' then some '\n'
      else if e = 't' then some '\t'
      else if e = 'r' then some '\r'
      else if e = 'b' then some (Char.ofNat 8)
      else if e = 'f' then some (Char.ofNat 12)
      else none
    match esc with
    | some c =>
      match parseStringBody rest with
      | some (s, r) => some (c :: s, r)
      | none => none
    | none => none
  | c :: rest =>
    match parseStringBody rest with
    | some (s, r) => some (c :: s, r)
    | none => none

/-- Numeric value of a decimal digit character. -/
def digitVal (c : Char) : Option Nat :=
  if '0' ≤ c ∧ c ≤ '9' then some (c.toNat - '0'.toNat) else none

/-- Split off the longest leading run of decimal digits. -/
def takeDigits : List Char → (List Nat × List Char)
  | [] => ([], [])
  | c :: rest =>
    match digitVal c with
    | some d =>
      let (ds, r) := takeDigits rest
      (d :: ds, r)
    | none => ([], c :: rest)

/-- Decimal digits to a natural number. -/
def digitsToNat (ds : List Nat) : Nat := ds.foldl (fun a d => a * 10 + d) 0

/-- JSON number token: optional minus sign, integer digits, optional
fraction, optional exponent, as an exact rational. -/
def parseNumberTok (cs : List Char) : Option (ℚ × List Char) :=
  let (neg, cs1) := match cs with
    | '-' :: rest => (true, rest)
    | _ => (false, cs)
  let (ds, cs2) := takeDigits cs1
  if ds = [] then none
  else
    let intPart : ℚ := (digitsToNat ds : ℚ)
    let (withFrac, cs3) : ℚ × List Char := match cs2 with
      | '.' :: rest =>
        let (fs, r) := takeDigits rest
        if fs = [] then (intPart, cs2)
        else (intPart + (digitsToNat fs : ℚ) / ((10 : ℚ) ^ fs.length), r)
      | _ => (intPart, cs2)
    let (withExp, cs4) : ℚ × List Char := match cs3 with
      | 'e' :: rest | 'E' :: rest =>
        let (esign, rest1) : Bool × List Char := match rest with
          | '-' :: r => (true, r)
          | '+' :: r => (false, r)
          | _ => (false, rest)
        let (es, r2) := takeDigits rest1
        if es = [] then (withFrac, cs3)
        else
          let e : ℚ := (10 : ℚ) ^ digitsToNat es
          (if esign then withFrac / e else withFrac * e, r2)
      | _ => (withFrac, cs3)
    some (if neg then -withExp else withExp, cs4)

mutual

/-- Fuel-driven recursive-descent JSON value parse; models the grammar
`JSON.parse` accepts (strict: no comments, no trailing commas). -/
def parseValue : Nat → List Char → Option (JsonValue × List Char)
  | 0, _ => none
  | fuel + 1, cs =>
    match cs.dropWhile isJsonWs with
    | '\x7b' :: rest =>
      match rest.dropWhile isJsonWs with
      | '\x7d' :: rest2 => some (.obj [], rest2)
      | rest2 => parseMembers fuel rest2 []
    | '[' :: rest =>
      match rest.dropWhile isJsonWs with
      | ']' :: rest2 => some (.arr [], rest2)
      | rest2 => parseElements fuel rest2 []
    | '"' :: rest =>
      match parseStringBody rest with
      | some (s, r) => some (.str (String.mk s), r)
      | none => none
    | 't' :: 'r' :: 'u' :: 'e' :: rest => some (.bool true, rest)
    | 'f' :: 'a' :: 'l' :: 's' :: 'e' :: rest => some (.bool false, rest)
    | 'n' :: 'u' :: 'l' :: 'l' :: rest => some (.null, rest)
    | cs2 =>
      match parseNumberTok cs2 with
      | some (q, r) => some (.num q, r)
      | none => none

/-- Members of a JSON object after the opening brace (non-empty case). -/
def parseMembers : Nat → List Char → List (String × JsonValue) →
    Option (JsonValue × List Char)
  | 0, _, _ => none
  | fuel + 1, cs, acc =>
    match cs with
    | '"' :: rest =>
      match parseStringBody rest with
      | some (k, r1) =>
        match r1.dropWhile isJsonWs with
        | ':' :: r2 =>
          match parseValue fuel r2 with
          | some (v, r3) =>
            match r3.dropWhile isJsonWs with
            | ',' :: r4 =>
              parseMembers fuel (r4.dropWhile isJsonWs) (acc ++ [(String.mk k, v)])
            | '\x7d' :: r4 => some (.obj (acc ++ [(String.mk k, v)]), r4)
            | _ => none
          | none => none
        | _ => none
      | none => none
    | _ => none

/-- Elements of a JSON array after the opening bracket (non-empty case). -/
def parseElements : Nat → List Char → List JsonValue →
    Option (JsonValue × List Char)
  | 0, _, _ => none
  | fuel + 1, cs, acc =>
    match parseValue fuel cs with
    | some (v, r) =>
      match r.dropWhile isJsonWs with
      | ',' :: r2 => parseElements fuel (r2.dropWhile isJsonWs) (acc ++ [v])
      | ']' :: r2 => some (.arr (acc ++ [v]), r2)
      | _ => none
    | none => none

end

/-- Model of JavaScript `JSON.parse` on a character list: parse one value
and require only whitespace to remain, otherwise fail like the strict
parser does on trailing garbage. -/
def jsParseList (cs : List Char) : Except String JsonValue :=
  match parseValue (2 * cs.length + 2) cs with
  | some (v, rest) =>
    if rest.dropWhile isJsonWs = [] then .ok v
    else .error "Unexpected non-whitespace character after JSON data"
  | none => .error "Unexpected end of JSON input"

/-- Model of `JSON.parse` on strings. -/
def jsParse (s : String) : Except String JsonValue := jsParseList s.data

/-- The character-by-character scan of `GeminiAPI.extractJsonFromText`
(gemini.ts lines 200-238): walks the text with an escape flag, a
string-quote state, and an integer brace counter, recording the index of
the first top-level `\x7b` and stopping at the matching `\x7d` that
returns the counter to zero. -/
def extractScan : List Char → Nat → Int → Option Nat → Bool → Bool →
    Option (Nat × Nat)
  | [], _, _, _, _, _ => none
  | c :: rest, i, braceCount, startIdx, inString, escapeNext =>
    if escapeNext then
      extractScan rest (i + 1) braceCount startIdx inString false
    else if c = '\\' then
      extractScan rest (i + 1) braceCount startIdx inString true
    else if c = '"' then
      extractScan rest (i + 1) braceCount startIdx (!inString) false
    else if !inString then
      if c = '\x7b' then
        extractScan rest (i + 1) (braceCount + 1)
          (if braceCount = 0 then some i else startIdx) inString false
      else if c = '\x7d' then
        if braceCount - 1 = 0 then
          match startIdx with
          | some s => some (s, i)
          | none => extractScan rest (i + 1) (braceCount - 1) startIdx inString false
        else
          extractScan rest (i + 1) (braceCount - 1) startIdx inString false
      else
        extractScan rest (i + 1) braceCount startIdx inString false
    else
      extractScan rest (i + 1) braceCount startIdx inString false

/-- Index of the first occurrence of a character (JS `indexOf`). -/
def firstIdxOf (c : Char) : List Char → Option Nat
  | [] => none
  | x :: xs => if x = c then some 0 else (firstIdxOf c xs).map (· + 1)

/-- Index of the last occurrence of a character (JS `lastIndexOf`). -/
def lastIdxOf (c : Char) (cs : List Char) : Option Nat :=
  (firstIdxOf c cs.reverse).map (fun i => cs.length - 1 - i)

/-- `GeminiAPI.extractJsonFromText` on character lists (gemini.ts lines
195-260): strategy 1 is the balanced-brace scan; if it finds no span, the
fallback takes the substring from the first `\x7b` to the last `\x7d`
when they are in order, and otherwise the text is returned unchanged. -/
def extractJsonList (text : List Char) : List Char :=
  match extractScan text 0 0 none false false with
  | some (s, e) => (text.take (e + 1)).drop s
  | none =>
    match firstIdxOf '\x7b' text, lastIdxOf '\x7d' text with
    | some jsonStart, some jsonEnd =>
      if jsonStart < jsonEnd then (text.take (jsonEnd + 1)).drop jsonStart
      else text
    | _, _ => text

/-- `GeminiAPI.extractJsonFromText` on strings. -/
def extractJsonFromText (text : String) : String :=
  String.mk (extractJsonList text.data)

/-- JS `String.prototype.trim` restricted to the whitespace this pipeline
meets. -/
def jsTrim (cs : List Char) : List Char :=
  ((cs.dropWhile isJsonWs).reverse.dropWhile isJsonWs).reverse

/-- Removal of a trailing markdown fence, the `.replace(/\s*` fence `$/, '')`
step of `cleanJsonResponse`. -/
def stripEndFence (cs : List Char) : List Char :=
  let bt := Char.ofNat 96
  let r := cs.reverse
  if [bt, bt, bt].isPrefixOf r then ((r.drop 3).dropWhile isJsonWs).reverse
  else cs

/-- The markdown-fence stripping of `GeminiAPI.cleanJsonResponse`
(gemini.ts lines 269-275): a leading fence tagged `json` (or untagged) is
removed together with following whitespace, and a trailing fence with
preceding whitespace is removed. -/
def stripFences (cs : List Char) : List Char :=
  let bt := Char.ofNat 96
  let fenceJson := [bt, bt, bt, 'j', 's', 'o', 'n']
  let fence := [bt, bt, bt]
  if fenceJson.isPrefixOf cs then
    stripEndFence ((cs.drop 7).dropWhile isJsonWs)
  else if fence.isPrefixOf cs then
    stripEndFence ((cs.drop 3).dropWhile isJsonWs)
  else cs

/-- One-pass model of `.replace(/\/\*[\s\S]*?\*\//g, '')`: a `/*` with a
later `*/` is removed together with the enclosed text; a `/*` with no
closing marker is kept verbatim, as the regex then has no match. -/
def stripBlockAux : Bool → List Char → List Char → List Char
  | false, _, '/' :: '*' :: rest => stripBlockAux true [] rest
  | false, p, c :: rest => c :: stripBlockAux false p rest
  | false, _, [] => []
  | true, _, '*' :: '/' :: rest => stripBlockAux false [] rest
  | true, pending, c :: rest => stripBlockAux true (c :: pending) rest
  | true, pending, [] => '/' :: '*' :: pending.reverse

/-- C-style block comment removal (gemini.ts line 282). -/
def stripBlockComments (cs : List Char) : List Char := stripBlockAux false [] cs

/-- One-pass model of `.replace(/\/\/.*$/gm, '')`: text from `//` to the
end of its line is dropped (gemini.ts line 283). -/
def stripLineAux : Bool → List Char → List Char
  | false, '/' :: '/' :: rest => stripLineAux true rest
  | false, c :: rest => c :: stripLineAux false rest
  | false, [] => []
  | true, '\n' :: rest => '\n' :: stripLineAux false rest
  | true, _ :: rest => stripLineAux true rest
  | true, [] => []

/-- Line comment removal (gemini.ts line 283). -/
def stripLineComments (cs : List Char) : List Char := stripLineAux false cs

/-- One-pass model of `.replace(/,(\s*[\x7d\]])/g, '$1')`: a comma whose
next non-whitespace character is a closing brace or bracket is dropped,
keeping the whitespace (gemini.ts line 284). -/
def stripTrailingCommasAux : Option (List Char) → List Char → List Char
  | none, ',' :: rest => stripTrailingCommasAux (some []) rest
  | none, c :: rest => c :: stripTrailingCommasAux none rest
  | none, [] => []
  | some ws, c :: rest =>
    if isJsonWs c then stripTrailingCommasAux (some (c :: ws)) rest
    else if c = '\x7d' ∨ c = ']' then ws.reverse ++ c :: stripTrailingCommasAux none rest
    else if c = ',' then ',' :: ws.reverse ++ stripTrailingCommasAux (some []) rest
    else ',' :: ws.reverse ++ c :: stripTrailingCommasAux none rest
  | some ws, [] => ',' :: ws.reverse

/-- Trailing comma removal (gemini.ts line 284). -/
def stripTrailingCommas (cs : List Char) : List Char :=
  stripTrailingCommasAux none cs

/-- `GeminiAPI.cleanJsonResponse` (gemini.ts lines 262-291): trim, strip
markdown fences, extract the JSON candidate span, strip block and line
comments, strip trailing commas, trim again. -/
def cleanJsonResponse (response : String) : String :=
  let cs := jsTrim response.data
  let cs := stripFences cs
  let cs := extractJsonList cs
  let cs := stripBlockComments cs
  let cs := stripLineComments cs
  let cs := stripTrailingCommas cs
  String.mk (jsTrim cs)

/-- Prefix of the list up to and including the last occurrence of `c`,
or `none` when `c` does not occur; models JS
`substring(0, lastIndexOf(c) + 1)`. -/
def takeToLast (c : Char) : List Char → Option (List Char)
  | [] => none
  | x :: xs =>
    match takeToLast c xs with
    | some r => some (x :: r)
    | none => if x = c then some [x] else none

/-- The repair block of `GeminiAPI.validateAndParseJson`
(gemini.ts lines 307-349), applied when direct parsing fails:
trim forward to the first `\x7b` when the text does not start with one;
truncate to the last `\x7d` when the text does not end with one; drop one
trailing comma; append closing braces and then closing brackets to balance
the raw character counts. -/
def fixStepStart (cs : List Char) : List Char :=
  if cs.head? = some '\x7b' then cs
  else match firstIdxOf '\x7b' cs with
    | some i => if 0 < i then cs.drop i else cs
    | none => cs

def fixStepEnd (cs : List Char) : List Char :=
  if cs.getLast? = some '\x7d' then cs
  else match takeToLast '\x7d' cs with
    | some r => r
    | none => cs

def fixStepComma (cs : List Char) : List Char :=
  if cs.getLast? = some ',' then cs.dropLast else cs

def fixStepBraces (cs : List Char) : List Char :=
  if cs.count '\x7d' < cs.count '\x7b' then
    cs ++ List.replicate (cs.count '\x7b' - cs.count '\x7d') '\x7d'
  else cs

def fixStepBrackets (cs : List Char) : List Char :=
  if cs.count ']' < cs.count '[' then
    cs ++ List.replicate (cs.count '[' - cs.count ']') ']'
  else cs

def fixJsonList (cs : List Char) : List Char :=
  fixStepBrackets (fixStepBraces (fixStepComma (fixStepEnd (fixStepStart cs))))

/-- The repair block on strings. -/
def fixJson (s : String) : String := String.mk (fixJsonList s.data)

/-- `GeminiAPI.validateAndParseJson` (gemini.ts lines 293-369): direct
parse first; on failure repair once and re-parse; if that fails too, the
error carries the original direct-parse error message. -/
def validateAndParseJson (jsonString : String) : Except String JsonValue :=
  match jsParse jsonString with
  | .ok parsed => .ok parsed
  | .error directError =>
    match jsParse (fixJson jsonString) with
    | .ok parsed => .ok parsed
    | .error _ => .error ("JSON parsing failed: " ++ directError)

/-- User profile as prepared by the caller for `generateDietPlan`
(gemini.ts `DietPlanRequest.userProfile`).  JS numbers are modelled as
exact rationals. -/
structure UserProfile where
  age : ℚ
  gender : String
  height : ℚ
  weight : ℚ
  targetWeight : ℚ
  activityLevel : String
  goal : String
  medicalConditions : List String
  allergies : List String
  timelineWeeks : ℚ

/-- Diet preferences as prepared by the caller (gemini.ts
`DietPlanRequest.preferences`).  `mealsPerDay` is a non-negative integer
count; `preferredMealTimes` is the meal-type → "HH:MM" record. -/
structure DietPreferences where
  dietType : String
  cuisinePreferences : List String
  tastePreferences : List String
  foodRestrictions : List String
  mealsPerDay : Nat
  preferredMealTimes : List (String × String)

/-- A generation request (gemini.ts `DietPlanRequest`). -/
structure DietPlanRequest where
  userProfile : UserProfile
  preferences : DietPreferences

/-- `Math.round` of JavaScript: round half away from zero upward, i.e.
`⌊x + 1/2⌋`, which is Mathlib's `round` on ℚ. -/
def jsRound (q : ℚ) : ℤ := round q

/-- `GeminiAPI.calculateBMR` (gemini.ts lines 611-618): Mifflin-St Jeor.
`10*weight + 6.25*height - 5*age + 5` when gender is exactly `'male'`,
otherwise the same formula with `- 161`. -/
def calculateBMR (profile : UserProfile) : ℚ :=
  if profile.gender = "male" then
    10 * profile.weight + 6.25 * profile.height - 5 * profile.age + 5
  else
    10 * profile.weight + 6.25 * profile.height - 5 * profile.age - 161

/-- The activity-multiplier table of `calculateDailyCalories`
(gemini.ts lines 622-630), with JS property lookup defaulting to 1.2 for
an unrecognized key. -/
def activityMultiplier (activityLevel : String) : ℚ :=
  if activityLevel = "sedentary" then 1.2
  else if activityLevel = "light" then 1.375
  else if activityLevel = "moderate" then 1.55
  else if activityLevel = "active" then 1.725
  else if activityLevel = "very_active" then 1.9
  else 1.2

/-- `GeminiAPI.calculateDailyCalories` (gemini.ts lines 620-643):
TDEE = BMR times activity multiplier, then the goal switch subtracts 500
for `weight_loss`, adds 300 for `muscle_gain`, and otherwise leaves TDEE
unchanged; the result is `Math.round`ed. -/
def calculateDailyCalories (bmr : ℚ) (activityLevel goal : String) : ℤ :=
  let tdee := bmr * activityMultiplier activityLevel
  if goal = "weight_loss" then jsRound (tdee - 500)
  else if goal = "muscle_gain" then jsRound (tdee + 300)
  else jsRound tdee

/-- The claim's activity-factor table, written from the spec's words
(section 4.1) for comparison with the code's `activityMultiplier`. -/
def specActivityFactor (activityLevel : String) : ℚ :=
  if activityLevel = "sedentary" then 1.2
  else if activityLevel = "light" then 1.375
  else if activityLevel = "moderate" then 1.55
  else if activityLevel = "active" then 1.725
  else if activityLevel = "very_active" then 1.9
  else 1.2

/-- The claim's goal adjustment, written from the spec's words
(section 4.1): -500 for weight_loss, +300 for muscle_gain, 0 otherwise. -/
def specGoalAdjustment (goal : String) : ℚ :=
  if goal = "weight_loss" then -500
  else if goal = "muscle_gain" then 300
  else 0

/-- The male, 30y, 180cm, 80kg profile of the claim's concrete example. -/
def exampleProfileC4 : UserProfile :=
  { age := 30, gender := "male", height := 180, weight := 80,
    targetWeight := 75, activityLevel := "sedentary", goal := "maintenance",
    medicalConditions := [], allergies := [], timelineWeeks := 4 }

/-- One ingredient record of a fallback meal template. -/
structure Ingredient where
  name : String
  amount : String
  unit : String

/-- One instruction record of a fallback meal template. -/
structure InstructionStep where
  step : Nat
  instruction : String

/-- One entry of the fallback meal-template library
(`mealTemplates` in `getComprehensiveFallbackDietPlan`). -/
structure MealTemplate where
  name : String
  description : String
  ingredients : List Ingredient
  instructions : List InstructionStep

/-- `mealTemplates.breakfast` (gemini.ts lines 668-796). -/
def breakfastTemplates : List MealTemplate := [
  { name := "Nutritious Oatmeal Bowl",
    description := "Steel-cut oats with fresh seasonal fruits, nuts, and a drizzle of honey",
    ingredients := [
      { name := "steel-cut oats", amount := "1/2", unit := "cup" },
      { name := "almond milk", amount := "1", unit := "cup" },
      { name := "fresh banana", amount := "1", unit := "medium" },
      { name := "mixed berries", amount := "1/2", unit := "cup" },
      { name := "chopped almonds", amount := "2", unit := "tbsp" },
      { name := "honey", amount := "1", unit := "tsp" }],
    instructions := [
      { step := 1, instruction := "Bring almond milk to a gentle boil in a saucepan" },
      { step := 2, instruction := "Add steel-cut oats and reduce heat to low, simmer for 15-20 minutes" },
      { step := 3, instruction := "Stir occasionally until oats are creamy and tender" },
      { step := 4, instruction := "Top with sliced banana, berries, and chopped almonds" },
      { step := 5, instruction := "Drizzle with honey and serve warm" }] },
  { name := "Avocado Toast Supreme",
    description := "Multigrain toast topped with creamy avocado, cherry tomatoes, and microgreens",
    ingredients := [
      { name := "multigrain bread", amount := "2", unit := "slices" },
      { name := "ripe avocado", amount := "1", unit := "large" },
      { name := "cherry tomatoes", amount := "6", unit := "pieces" },
      { name := "microgreens", amount := "1", unit := "handful" },
      { name := "lemon juice", amount := "1", unit := "tbsp" },
      { name := "sea salt", amount := "1/4", unit := "tsp" },
      { name := "black pepper", amount := "1/4", unit := "tsp" }],
    instructions := [
      { step := 1, instruction := "Toast bread slices until golden and crispy" },
      { step := 2, instruction := "Mash avocado with lemon juice, salt, and pepper" },
      { step := 3, instruction := "Spread avocado mixture generously on toast" },
      { step := 4, instruction := "Top with halved cherry tomatoes and microgreens" },
      { step := 5, instruction := "Serve immediately while toast is still warm" }] },
  { name := "Greek Yogurt Parfait",
    description := "Protein-rich Greek yogurt layered with homemade granola and fresh fruits",
    ingredients := [
      { name := "Greek yogurt", amount := "1", unit := "cup" },
      { name := "homemade granola", amount := "1/3", unit := "cup" },
      { name := "fresh strawberries", amount := "1/2", unit := "cup" },
      { name := "blueberries", amount := "1/4", unit := "cup" },
      { name := "raw honey", amount := "1", unit := "tbsp" },
      { name := "chia seeds", amount := "1", unit := "tsp" }],
    instructions := [
      { step := 1, instruction := "Layer half the yogurt in a glass or bowl" },
      { step := 2, instruction := "Add half the granola and berries" },
      { step := 3, instruction := "Repeat layers with remaining ingredients" },
      { step := 4, instruction := "Drizzle with honey and sprinkle chia seeds on top" },
      { step := 5, instruction := "Serve immediately for best texture" }] },
  { name := "Smoothie Bowl Delight",
    description := "Thick smoothie bowl topped with fresh fruits, nuts, and seeds",
    ingredients := [
      { name := "frozen mango", amount := "1", unit := "cup" },
      { name := "banana", amount := "1", unit := "medium" },
      { name := "coconut milk", amount := "1/2", unit := "cup" },
      { name := "spinach", amount := "1", unit := "handful" },
      { name := "coconut flakes", amount := "2", unit := "tbsp" },
      { name := "pumpkin seeds", amount := "1", unit := "tbsp" }],
    instructions := [
      { step := 1, instruction := "Blend frozen mango, banana, coconut milk, and spinach until thick" },
      { step := 2, instruction := "Pour into a bowl" },
      { step := 3, instruction := "Top with coconut flakes and pumpkin seeds" },
      { step := 4, instruction := "Serve immediately" }] },
  { name := "Protein Pancakes",
    description := "Fluffy protein-packed pancakes with fresh berries",
    ingredients := [
      { name := "protein powder", amount := "1", unit := "scoop" },
      { name := "banana", amount := "1", unit := "medium" },
      { name := "eggs", amount := "2", unit := "large" },
      { name := "oats", amount := "1/4", unit := "cup" },
      { name := "berries", amount := "1/2", unit := "cup" },
      { name := "maple syrup", amount := "1", unit := "tbsp" }],
    instructions := [
      { step := 1, instruction := "Blend all ingredients except berries until smooth" },
      { step := 2, instruction := "Cook pancakes in a non-stick pan" },
      { step := 3, instruction := "Top with fresh berries and maple syrup" }] },
  { name := "Breakfast Quinoa Bowl",
    description := "Warm quinoa with nuts, seeds, and fresh fruit",
    ingredients := [
      { name := "quinoa", amount := "1/2", unit := "cup" },
      { name := "almond milk", amount := "1", unit := "cup" },
      { name := "cinnamon", amount := "1/2", unit := "tsp" },
      { name := "walnuts", amount := "2", unit := "tbsp" },
      { name := "apple", amount := "1", unit := "medium" },
      { name := "honey", amount := "1", unit := "tsp" }],
    instructions := [
      { step := 1, instruction := "Cook quinoa in almond milk with cinnamon" },
      { step := 2, instruction := "Top with chopped apple and walnuts" },
      { step := 3, instruction := "Drizzle with honey" }] },
  { name := "Veggie Scramble",
    description := "Scrambled eggs with colorful vegetables and herbs",
    ingredients := [
      { name := "eggs", amount := "3", unit := "large" },
      { name := "bell pepper", amount := "1/2", unit := "medium" },
      { name := "spinach", amount := "1", unit := "cup" },
      { name := "mushrooms", amount := "1/2", unit := "cup" },
      { name := "cheese", amount := "2", unit := "tbsp" },
      { name := "herbs", amount := "1", unit := "tbsp" }],
    instructions := [
      { step := 1, instruction := "Sauté vegetables until tender" },
      { step := 2, instruction := "Add beaten eggs and scramble" },
      { step := 3, instruction := "Top with cheese and herbs" }] }]

/-- `mealTemplates.lunch` (gemini.ts lines 797-938). -/
def lunchTemplates : List MealTemplate := [
  { name := "Mediterranean Quinoa Power Bowl",
    description := "Protein-packed quinoa with roasted vegetables, feta, and tahini dressing",
    ingredients := [
      { name := "tri-color quinoa", amount := "1/2", unit := "cup" },
      { name := "cucumber", amount := "1", unit := "medium" },
      { name := "cherry tomatoes", amount := "1", unit := "cup" },
      { name := "red bell pepper", amount := "1/2", unit := "medium" },
      { name := "feta cheese", amount := "1/4", unit := "cup" },
      { name := "kalamata olives", amount := "8", unit := "pieces" },
      { name := "extra virgin olive oil", amount := "2", unit := "tbsp" },
      { name := "lemon juice", amount := "1", unit := "tbsp" }],
    instructions := [
      { step := 1, instruction := "Rinse quinoa and cook according to package directions" },
      { step := 2, instruction := "Dice cucumber, tomatoes, and bell pepper" },
      { step := 3, instruction := "Let quinoa cool to room temperature" },
      { step := 4, instruction := "Combine quinoa with vegetables and olives" },
      { step := 5, instruction := "Whisk olive oil and lemon juice, toss with salad" },
      { step := 6, instruction := "Top with crumbled feta and serve" }] },
  { name := "Grilled Chicken & Hummus Wrap",
    description := "Lean grilled chicken with fresh vegetables and creamy hummus in a whole wheat wrap",
    ingredients := [
      { name := "whole wheat tortilla", amount := "1", unit := "large" },
      { name := "grilled chicken breast", amount := "4", unit := "oz" },
      { name := "romaine lettuce", amount := "2", unit := "cups" },
      { name := "roma tomato", amount := "1", unit := "medium" },
      { name := "red onion", amount := "2", unit := "tbsp" },
      { name := "hummus", amount := "3", unit := "tbsp" },
      { name := "cucumber", amount := "1/4", unit := "cup" }],
    instructions := [
      { step := 1, instruction := "Warm tortilla in a dry pan for 30 seconds each side" },
      { step := 2, instruction := "Spread hummus evenly across the tortilla" },
      { step := 3, instruction := "Layer lettuce, sliced chicken, tomato, and cucumber" },
      { step := 4, instruction := "Add red onion and any desired seasonings" },
      { step := 5, instruction := "Roll tightly, tucking in sides as you go" },
      { step := 6, instruction := "Cut in half diagonally and serve" }] },
  { name := "Rainbow Buddha Bowl",
    description := "Colorful bowl with brown rice, roasted vegetables, and tahini dressing",
    ingredients := [
      { name := "brown rice", amount := "1/2", unit := "cup" },
      { name := "roasted sweet potato", amount := "1/2", unit := "cup" },
      { name := "steamed broccoli", amount := "1/2", unit := "cup" },
      { name := "shredded purple cabbage", amount := "1/4", unit := "cup" },
      { name := "chickpeas", amount := "1/2", unit := "cup" },
      { name := "tahini", amount := "2", unit := "tbsp" },
      { name := "lemon juice", amount := "1", unit := "tbsp" },
      { name := "pumpkin seeds", amount := "1", unit := "tbsp" }],
    instructions := [
      { step := 1, instruction := "Cook brown rice according to package directions" },
      { step := 2, instruction := "Roast sweet potato cubes at 400°F for 25 minutes" },
      { step := 3, instruction := "Steam broccoli until tender-crisp" },
      { step := 4, instruction := "Arrange all ingredients in a bowl" },
      { step := 5, instruction := "Whisk tahini with lemon juice and water to thin" },
      { step := 6, instruction := "Drizzle dressing over bowl and sprinkle with seeds" }] },
  { name := "Asian Lettuce Wraps",
    description := "Fresh lettuce cups filled with seasoned protein and vegetables",
    ingredients := [
      { name := "butter lettuce", amount := "8", unit := "leaves" },
      { name := "ground turkey", amount := "4", unit := "oz" },
      { name := "water chestnuts", amount := "1/4", unit := "cup" },
      { name := "carrots", amount := "1/4", unit := "cup" },
      { name := "soy sauce", amount := "2", unit := "tbsp" },
      { name := "sesame oil", amount := "1", unit := "tsp" },
      { name := "green onions", amount := "2", unit := "stalks" }],
    instructions := [
      { step := 1, instruction := "Cook ground turkey until browned" },
      { step := 2, instruction := "Add diced vegetables and seasonings" },
      { step := 3, instruction := "Serve mixture in lettuce cups" },
      { step := 4, instruction := "Garnish with green onions" }] },
  { name := "Lentil Soup",
    description := "Hearty and nutritious lentil soup with vegetables",
    ingredients := [
      { name := "red lentils", amount := "1/2", unit := "cup" },
      { name := "vegetable broth", amount := "2", unit := "cups" },
      { name := "carrots", amount := "1", unit := "medium" },
      { name := "celery", amount := "2", unit := "stalks" },
      { name := "onion", amount := "1/2", unit := "medium" },
      { name := "garlic", amount := "2", unit := "cloves" },
      { name := "herbs", amount := "1", unit := "tsp" }],
    instructions := [
      { step := 1, instruction := "Sauté onion, carrots, and celery" },
      { step := 2, instruction := "Add lentils and broth" },
      { step := 3, instruction := "Simmer until lentils are tender" },
      { step := 4, instruction := "Season with herbs and serve" }] },
  { name := "Caprese Salad",
    description := "Fresh mozzarella, tomatoes, and basil with balsamic glaze",
    ingredients := [
      { name := "fresh mozzarella", amount := "4", unit := "oz" },
      { name := "tomatoes", amount := "2", unit := "large" },
      { name := "fresh basil", amount := "1/4", unit := "cup" },
      { name := "balsamic vinegar", amount := "2", unit := "tbsp" },
      { name := "olive oil", amount := "1", unit := "tbsp" },
      { name := "salt", amount := "1/4", unit := "tsp" }],
    instructions := [
      { step := 1, instruction := "Slice tomatoes and mozzarella" },
      { step := 2, instruction := "Arrange with basil leaves" },
      { step := 3, instruction := "Drizzle with oil and balsamic" },
      { step := 4, instruction := "Season with salt" }] },
  { name := "Tuna Salad Bowl",
    description := "Protein-rich tuna salad with mixed greens and vegetables",
    ingredients := [
      { name := "canned tuna", amount := "1", unit := "can" },
      { name := "mixed greens", amount := "2", unit := "cups" },
      { name := "cherry tomatoes", amount := "1/2", unit := "cup" },
      { name := "cucumber", amount := "1/2", unit := "medium" },
      { name := "avocado", amount := "1/2", unit := "medium" },
      { name := "olive oil", amount := "1", unit := "tbsp" },
      { name := "lemon juice", amount := "1", unit := "tbsp" }],
    instructions := [
      { step := 1, instruction := "Drain and flake tuna" },
      { step := 2, instruction := "Arrange greens and vegetables in bowl" },
      { step := 3, instruction := "Top with tuna and avocado" },
      { step := 4, instruction := "Dress with oil and lemon" }] }]

/-- `mealTemplates.dinner` (gemini.ts lines 939-1082). -/
def dinnerTemplates : List MealTemplate := [
  { name := "Herb-Crusted Baked Salmon",
    description := "Fresh Atlantic salmon with herb crust, served with roasted seasonal vegetables",
    ingredients := [
      { name := "salmon fillet", amount := "6", unit := "oz" },
      { name := "fresh dill", amount := "2", unit := "tbsp" },
      { name := "fresh parsley", amount := "2", unit := "tbsp" },
      { name := "garlic", amount := "2", unit := "cloves" },
      { name := "lemon zest", amount := "1", unit := "tsp" },
      { name := "asparagus", amount := "8", unit := "spears" },
      { name := "baby potatoes", amount := "6", unit := "small" },
      { name := "olive oil", amount := "2", unit := "tbsp" }],
    instructions := [
      { step := 1, instruction := "Preheat oven to 425°F" },
      { step := 2, instruction := "Mix herbs, minced garlic, and lemon zest" },
      { step := 3, instruction := "Rub herb mixture on salmon fillet" },
      { step := 4, instruction := "Toss vegetables with olive oil and seasonings" },
      { step := 5, instruction := "Bake salmon and vegetables for 18-20 minutes" },
      { step := 6, instruction := "Let rest 5 minutes before serving" }] },
  { name := "Vegetable Curry with Coconut Rice",
    description := "Aromatic mixed vegetable curry served over fragrant coconut basmati rice",
    ingredients := [
      { name := "basmati rice", amount := "1/2", unit := "cup" },
      { name := "coconut milk", amount := "1/2", unit := "cup" },
      { name := "mixed vegetables", amount := "2", unit := "cups" },
      { name := "curry powder", amount := "2", unit := "tsp" },
      { name := "ginger", amount := "1", unit := "tbsp" },
      { name := "onion", amount := "1", unit := "medium" },
      { name := "garlic", amount := "3", unit := "cloves" },
      { name := "vegetable broth", amount := "1", unit := "cup" }],
    instructions := [
      { step := 1, instruction := "Cook rice with half coconut milk and water" },
      { step := 2, instruction := "Sauté onion, garlic, and ginger until fragrant" },
      { step := 3, instruction := "Add curry powder and cook for 1 minute" },
      { step := 4, instruction := "Add vegetables and broth, simmer 15 minutes" },
      { step := 5, instruction := "Stir in remaining coconut milk" },
      { step := 6, instruction := "Serve curry over coconut rice" }] },
  { name := "Lean Turkey Meatballs with Zucchini Noodles",
    description := "Healthy turkey meatballs in marinara sauce over spiralized zucchini noodles",
    ingredients := [
      { name := "ground turkey", amount := "5", unit := "oz" },
      { name := "zucchini", amount := "2", unit := "medium" },
      { name := "marinara sauce", amount := "1/2", unit := "cup" },
      { name := "whole wheat breadcrumbs", amount := "1/4", unit := "cup" },
      { name := "egg", amount := "1", unit := "large" },
      { name := "Italian herbs", amount := "1", unit := "tsp" },
      { name := "parmesan cheese", amount := "2", unit := "tbsp" }],
    instructions := [
      { step := 1, instruction := "Mix turkey, breadcrumbs, egg, and herbs" },
      { step := 2, instruction := "Form into 8-10 small meatballs" },
      { step := 3, instruction := "Bake meatballs at 375°F for 20 minutes" },
      { step := 4, instruction := "Spiralize zucchini into noodles" },
      { step := 5, instruction := "Heat marinara and add cooked meatballs" },
      { step := 6, instruction := "Serve over zucchini noodles with parmesan" }] },
  { name := "Stuffed Bell Peppers",
    description := "Colorful bell peppers stuffed with quinoa, vegetables, and herbs",
    ingredients := [
      { name := "bell peppers", amount := "2", unit := "large" },
      { name := "quinoa", amount := "1/2", unit := "cup" },
      { name := "black beans", amount := "1/2", unit := "cup" },
      { name := "corn", amount := "1/4", unit := "cup" },
      { name := "tomatoes", amount := "1/2", unit := "cup" },
      { name := "cheese", amount := "1/4", unit := "cup" },
      { name := "herbs", amount := "1", unit := "tbsp" }],
    instructions := [
      { step := 1, instruction := "Cut tops off peppers and remove seeds" },
      { step := 2, instruction := "Cook quinoa and mix with vegetables" },
      { step := 3, instruction := "Stuff peppers with quinoa mixture" },
      { step := 4, instruction := "Top with cheese and bake 25 minutes" }] },
  { name := "Grilled Chicken with Sweet Potato",
    description := "Marinated grilled chicken breast with roasted sweet potato wedges",
    ingredients := [
      { name := "chicken breast", amount := "6", unit := "oz" },
      { name := "sweet potato", amount := "1", unit := "large" },
      { name := "olive oil", amount := "2", unit := "tbsp" },
      { name := "herbs", amount := "1", unit := "tbsp" },
      { name := "garlic", amount := "2", unit := "cloves" },
      { name := "lemon", amount := "1/2", unit := "medium" },
      { name := "green beans", amount := "1", unit := "cup" }],
    instructions := [
      { step := 1, instruction := "Marinate chicken with herbs and garlic" },
      { step := 2, instruction := "Cut sweet potato into wedges" },
      { step := 3, instruction := "Grill chicken and roast sweet potato" },
      { step := 4, instruction := "Steam green beans until tender" },
      { step := 5, instruction := "Serve with lemon wedges" }] },
  { name := "Fish Tacos",
    description := "Grilled fish tacos with cabbage slaw and avocado",
    ingredients := [
      { name := "white fish", amount := "5", unit := "oz" },
      { name := "corn tortillas", amount := "3", unit := "small" },
      { name := "cabbage", amount := "1", unit := "cup" },
      { name := "avocado", amount := "1/2", unit := "medium" },
      { name := "lime", amount := "1", unit := "medium" },
      { name := "cilantro", amount := "2", unit := "tbsp" },
      { name := "yogurt", amount := "2", unit := "tbsp" }],
    instructions := [
      { step := 1, instruction := "Season and grill fish until flaky" },
      { step := 2, instruction := "Make slaw with cabbage and lime" },
      { step := 3, instruction := "Warm tortillas" },
      { step := 4, instruction := "Assemble tacos with fish, slaw, and avocado" }] },
  { name := "Eggplant Parmesan",
    description := "Baked eggplant layered with marinara and cheese",
    ingredients := [
      { name := "eggplant", amount := "1", unit := "medium" },
      { name := "marinara sauce", amount := "1", unit := "cup" },
      { name := "mozzarella cheese", amount := "1/2", unit := "cup" },
      { name := "parmesan cheese", amount := "1/4", unit := "cup" },
      { name := "breadcrumbs", amount := "1/4", unit := "cup" },
      { name := "basil", amount := "2", unit := "tbsp" },
      { name := "olive oil", amount := "2", unit := "tbsp" }],
    instructions := [
      { step := 1, instruction := "Slice eggplant and brush with oil" },
      { step := 2, instruction := "Bake eggplant until tender" },
      { step := 3, instruction := "Layer with sauce and cheese" },
      { step := 4, instruction := "Bake until cheese melts" }] }]

/-- `mealTemplates.snack` (gemini.ts lines 1083-1155). -/
def snackTemplates : List MealTemplate := [
  { name := "Greek Yogurt Berry Bowl",
    description := "Protein-rich Greek yogurt with antioxidant-packed mixed berries",
    ingredients := [
      { name := "Greek yogurt", amount := "3/4", unit := "cup" },
      { name := "mixed berries", amount := "1/2", unit := "cup" },
      { name := "honey", amount := "1", unit := "tsp" },
      { name := "chopped walnuts", amount := "1", unit := "tbsp" }],
    instructions := [
      { step := 1, instruction := "Place yogurt in a serving bowl" },
      { step := 2, instruction := "Top with fresh mixed berries" },
      { step := 3, instruction := "Drizzle with honey and sprinkle nuts" }] },
  { name := "Energy Trail Mix",
    description := "Homemade mix of nuts, seeds, and dried fruit for sustained energy",
    ingredients := [
      { name := "almonds", amount := "2", unit := "tbsp" },
      { name := "walnuts", amount := "1", unit := "tbsp" },
      { name := "pumpkin seeds", amount := "1", unit := "tbsp" },
      { name := "dried cranberries", amount := "1", unit := "tbsp" }],
    instructions := [
      { step := 1, instruction := "Mix all ingredients in a small bowl" },
      { step := 2, instruction := "Store in airtight container for freshness" }] },
  { name := "Apple with Almond Butter",
    description := "Crisp apple slices with creamy almond butter",
    ingredients := [
      { name := "apple", amount := "1", unit := "medium" },
      { name := "almond butter", amount := "2", unit := "tbsp" },
      { name := "cinnamon", amount := "1/4", unit := "tsp" }],
    instructions := [
      { step := 1, instruction := "Slice apple into wedges" },
      { step := 2, instruction := "Serve with almond butter and cinnamon" }] },
  { name := "Hummus and Veggies",
    description := "Fresh vegetables with protein-rich hummus",
    ingredients := [
      { name := "hummus", amount := "1/4", unit := "cup" },
      { name := "carrots", amount := "1", unit := "medium" },
      { name := "cucumber", amount := "1/2", unit := "medium" },
      { name := "bell pepper", amount := "1/2", unit := "medium" }],
    instructions := [
      { step := 1, instruction := "Cut vegetables into sticks" },
      { step := 2, instruction := "Serve with hummus for dipping" }] },
  { name := "Protein Smoothie",
    description := "Refreshing protein smoothie with fruits and vegetables",
    ingredients := [
      { name := "protein powder", amount := "1", unit := "scoop" },
      { name := "banana", amount := "1/2", unit := "medium" },
      { name := "spinach", amount := "1", unit := "handful" },
      { name := "almond milk", amount := "1", unit := "cup" },
      { name := "berries", amount := "1/4", unit := "cup" }],
    instructions := [
      { step := 1, instruction := "Blend all ingredients until smooth" },
      { step := 2, instruction := "Serve immediately" }] }]

/-- `mealTemplates[mealType] || mealTemplates.breakfast` property lookup
(gemini.ts line 1172). -/
def mealTemplatesFor (mealType : String) : List MealTemplate :=
  if mealType = "breakfast" then breakfastTemplates
  else if mealType = "lunch" then lunchTemplates
  else if mealType = "dinner" then dinnerTemplates
  else if mealType = "snack" then snackTemplates
  else breakfastTemplates

/-- Runtime view of a generated meal (gemini.ts `GeneratedMeal`); the
TypeScript annotations are erased at runtime, so `mealType` and
`difficulty` are plain strings. -/
structure GeneratedMeal where
  name : String
  description : String
  mealType : String
  mealTime : String
  calories : ℚ
  protein : ℚ
  carbs : ℚ
  fat : ℚ
  ingredients : List Ingredient
  instructions : List InstructionStep
  prepTime : ℚ
  cookTime : ℚ
  difficulty : String
  tags : List String
  cuisineType : String

/-- One day entry of a generated plan (gemini.ts `GeneratedDietPlan.meals`
element). -/
structure DayPlan where
  dayNumber : ℚ
  dayName : String
  totalDayCalories : ℚ
  meals : List GeneratedMeal

/-- A generated diet plan (gemini.ts `GeneratedDietPlan`). -/
structure GeneratedDietPlan where
  name : String
  description : String
  totalCalories : ℚ
  durationWeeks : ℚ
  meals : List DayPlan

/-- The JS object value of an ingredient record. -/
def Ingredient.toJson (i : Ingredient) : JsonValue :=
  .obj [("name", .str i.name), ("amount", .str i.amount), ("unit", .str i.unit)]

/-- The JS object value of an instruction record. -/
def InstructionStep.toJson (s : InstructionStep) : JsonValue :=
  .obj [("step", .num (s.step : ℚ)), ("instruction", .str s.instruction)]

/-- The JS object value of a generated meal. -/
def GeneratedMeal.toJson (m : GeneratedMeal) : JsonValue :=
  .obj [("name", .str m.name), ("description", .str m.description),
    ("mealType", .str m.mealType), ("mealTime", .str m.mealTime),
    ("calories", .num m.calories), ("protein", .num m.protein),
    ("carbs", .num m.carbs), ("fat", .num m.fat),
    ("ingredients", .arr (m.ingredients.map Ingredient.toJson)),
    ("instructions", .arr (m.instructions.map InstructionStep.toJson)),
    ("prepTime", .num m.prepTime), ("cookTime", .num m.cookTime),
    ("difficulty", .str m.difficulty),
    ("tags", .arr (m.tags.map JsonValue.str)),
    ("cuisineType", .str m.cuisineType)]

/-- The JS object value of a day plan. -/
def DayPlan.toJson (d : DayPlan) : JsonValue :=
  .obj [("dayNumber", .num d.dayNumber), ("dayName", .str d.dayName),
    ("totalDayCalories", .num d.totalDayCalories),
    ("meals", .arr (d.meals.map GeneratedMeal.toJson))]

/-- The JS object value of a generated diet plan. -/
def GeneratedDietPlan.toJson (p : GeneratedDietPlan) : JsonValue :=
  .obj [("name", .str p.name), ("description", .str p.description),
    ("totalCalories", .num p.totalCalories),
    ("durationWeeks", .num p.durationWeeks),
    ("meals", .arr (p.meals.map DayPlan.toJson))]

/-- The meal-type slate of the fallback (gemini.ts lines 656-662): always
breakfast/lunch/dinner, one snack pushed when more than 3 meals are
requested, a second snack pushed when more than 4 are. -/
def fallbackMealTypes (mealsPerDay : Nat) : List String :=
  ["breakfast", "lunch", "dinner"] ++
  (if 3 < mealsPerDay then ["snack"] else []) ++
  (if 4 < mealsPerDay then ["snack"] else [])

/-- `preferences.preferredMealTimes?.[mealType] || default`
(gemini.ts lines 1182-1185). -/
def lookupMealTime (prefs : DietPreferences) (mealType : String) : String :=
  let dflt := if mealType = "breakfast" then "08:00"
    else if mealType = "lunch" then "13:00"
    else if mealType = "dinner" then "19:00"
    else "15:00"
  match prefs.preferredMealTimes.lookup mealType with
  | some t => if t = "" then dflt else t
  | none => dflt

/-- Inert default for the template selection below; never reached since
every template list is non-empty. -/
def emptyTemplate : MealTemplate :=
  { name := "", description := "", ingredients := [], instructions := [] }

/-- `templates[dayIndex % templates.length]` (gemini.ts line 1174). -/
def templateAt (mealType : String) (dayIndex : Nat) : MealTemplate :=
  let templates := mealTemplatesFor mealType
  (templates.get? (dayIndex % templates.length)).getD emptyTemplate

/-- One fallback meal (gemini.ts lines 1171-1198): template data plus the
even calorie split and the fixed 25/45/30 percent macro apportionment. -/
def mkFallbackMeal (caloriesPerMeal : ℤ) (prefs : DietPreferences)
    (dayIndex : Nat) (mealType : String) : GeneratedMeal :=
  let template := templateAt mealType dayIndex
  { name := template.name
    description := template.description
    mealType := mealType
    mealTime := lookupMealTime prefs mealType
    calories := (caloriesPerMeal : ℚ)
    protein := (jsRound ((caloriesPerMeal : ℚ) * 0.25 / 4) : ℚ)
    carbs := (jsRound ((caloriesPerMeal : ℚ) * 0.45 / 4) : ℚ)
    fat := (jsRound ((caloriesPerMeal : ℚ) * 0.30 / 9) : ℚ)
    ingredients := template.ingredients
    instructions := template.instructions
    prepTime := 15
    cookTime := 20
    difficulty := "easy"
    tags := ["healthy", "balanced", mealType,
      if prefs.dietType = "" then "nutritious" else prefs.dietType]
    cuisineType :=
      match prefs.cuisinePreferences.head? with
      | some c => if c = "" then "international" else c
      | none => "international" }

/-- JS `goal?.replace('_', ' ')`: replaces the first underscore only. -/
def replaceFirstUnderscore : List Char → List Char
  | [] => []
  | c :: cs => if c = '_' then ' ' :: cs else c :: replaceFirstUnderscore cs

/-- The literal 7-day-name list (gemini.ts line 653). -/
def fallbackDayNames : List String :=
  ["Monday", "Tuesday", "Wednesday", "Thursday", "Friday", "Saturday", "Sunday"]

/-- One fallback day (gemini.ts lines 1164-1200): day number and name from
the day list, total day calories, and the slate sliced to `mealsPerDay`. -/
def mkFallbackDay (dailyCalories : ℚ) (caloriesPerMeal : ℤ)
    (prefs : DietPreferences) (dayIndex : Nat) (dayName : String) : DayPlan :=
  { dayNumber := ((dayIndex + 1 : Nat) : ℚ)
    dayName := dayName
    totalDayCalories := dailyCalories
    meals := ((fallbackMealTypes prefs.mealsPerDay).take prefs.mealsPerDay).map
      (mkFallbackMeal caloriesPerMeal prefs dayIndex) }

/-- The fallback plan object (gemini.ts lines 1158-1201). -/
def buildFallbackPlan (dailyCalories : ℚ) (prefs : DietPreferences)
    (profile : UserProfile) : GeneratedDietPlan :=
  let caloriesPerMeal := jsRound (dailyCalories / (prefs.mealsPerDay : ℚ))
  let goalText := String.mk (replaceFirstUnderscore profile.goal.data)
  { name := "Personalized " ++
      (if goalText = "" then "Wellness" else goalText) ++ " Diet Plan"
    description := "A comprehensive, balanced 7-day diet plan designed with whole foods and proper nutrition to help you achieve your health goals while enjoying delicious, varied meals throughout the week."
    totalCalories := dailyCalories
    durationWeeks :=
      if profile.timelineWeeks = 0 then 4 else profile.timelineWeeks
    meals := fallbackDayNames.enum.map
      (fun p => mkFallbackDay dailyCalories caloriesPerMeal prefs p.1 p.2) }

/-- `GeminiAPI.getComprehensiveFallbackDietPlan` (gemini.ts lines
646-1224): builds the template plan, re-validates it defensively, and
throws the fatal error when its own validation fails. -/
def getComprehensiveFallbackDietPlan (dailyCalories : ℚ)
    (prefs : DietPreferences) (profile : UserProfile) :
    Except String JsonValue :=
  let planJson := (buildFallbackPlan dailyCalories prefs profile).toJson
  if validateDietPlanStructure planJson then .ok planJson
  else .error "Fallback diet plan generation failed - this should never happen"

/-- Substring test (JS `includes`). -/
def hasSub (pat : List Char) : List Char → Bool
  | [] => pat.isEmpty
  | c :: rest => pat.isPrefixOf (c :: rest) || hasSub pat rest

/-- `GEMINI_API_KEY = import.meta.env.VITE_GEMINI_API_KEY || 'demo-key'`
(gemini.ts line 2): an unset or empty environment variable leaves the
literal placeholder string. -/
def resolveApiKey (envKey : Option String) : String :=
  match envKey with
  | none => "demo-key"
  | some s => if s = "" then "demo-key" else s

/-- `GeminiAPI.makeRequest` (gemini.ts lines 82-193).  The fetch call, its
transport-status check and the envelope checks are modelled by the oracle
`net`: `.ok text` is the extracted candidate text, `.error msg` any error
they raise.  The API-key guard precedes every use of the oracle; the catch
block passes the key error and the envelope errors through and re-wraps
anything else into the generic message. -/
def makeRequest (key : String) (net : Except String String) :
    Except String String :=
  if key = "" ∨ key = "demo-key" then .error "API_KEY_MISSING"
  else
    match net with
    | .ok text => .ok text
    | .error msg =>
      if msg = "API_KEY_MISSING" ∨
          hasSub "Unexpected response format".data msg.data then
        .error msg
      else .error "Failed to generate content with AI"

/-- The daily calories `generateDietPlan` computes for a request
(gemini.ts lines 379-380). -/
def dailyCaloriesFor (request : DietPlanRequest) : ℤ :=
  calculateDailyCalories (calculateBMR request.userProfile)
    request.userProfile.activityLevel request.userProfile.goal

/-- `GeminiAPI.generateDietPlan` (gemini.ts lines 371-496), with the
credential `envKey` and the post-key-check network stage modelled by the
oracle `net`.  Prompt construction has no failure mode and its text is not
consumed by the oracle model.  A parse failure or a validation failure
inside the `try` block routes to the fallback; the outer catch also routes
every thrown error — including a fallback self-validation error raised
inside the `try` — to one more (identical) fallback call. -/
def generateDietPlan (envKey : Option String) (net : Except String String)
    (request : DietPlanRequest) : Except String JsonValue :=
  let dailyCalories : ℚ := (dailyCaloriesFor request : ℚ)
  let attempt : Except String JsonValue :=
    match makeRequest (resolveApiKey envKey) net with
    | .error e => .error e
    | .ok response =>
      match validateAndParseJson (cleanJsonResponse response) with
      | .error _ =>
        getComprehensiveFallbackDietPlan dailyCalories request.preferences
          request.userProfile
      | .ok dietPlan =>
        if validateDietPlanStructure dietPlan then .ok dietPlan
        else
          getComprehensiveFallbackDietPlan dailyCalories request.preferences
            request.userProfile
  match attempt with
  | .ok plan => .ok plan
  | .error _ =>
    getComprehensiveFallbackDietPlan dailyCalories request.preferences
      request.userProfile

/-- The caller's persistence record fragment (DietPlans.tsx lines
253-263): the fields derived from the generated plan, with the flag
`ai_generated` set to the literal `true` on every path; the date and
user-id fields, which come from the clock and the session, are omitted. -/
def planInsertFromGenerated (wizardPlanName : Option String)
    (generatedPlan : JsonValue) : List (String × JsonValue) :=
  [("name",
     match wizardPlanName with
     | some n =>
       if n = "" then (getField generatedPlan "name").getD .null else .str n
     | none => (getField generatedPlan "name").getD .null),
   ("description", (getField generatedPlan "description").getD .null),
   ("total_calories", (getField generatedPlan "totalCalories").getD .null),
   ("duration_weeks", (getField generatedPlan "durationWeeks").getD .null),
   ("status", .str "active"),
   ("ai_generated", .bool true)]

/-- The days list of a parsed plan value (empty when absent). -/
def planDays (p : JsonValue) : List JsonValue :=
  (asArray (getField p "meals")).getD []

/-- The meals list of a parsed day value (empty when absent). -/
def dayMeals (d : JsonValue) : List JsonValue :=
  (asArray (getField d "meals")).getD []

/-- The per-meal shape claim C1 asserts: non-empty string name, a
mealType recognized among breakfast/lunch/dinner/snack, and a
non-negative numeric calories value. -/
def strictMealOk (m : JsonValue) : Bool :=
  (match getField m "name" with
   | some (.str n) => n ≠ ""
   | _ => false) &&
  (match getField m "mealType" with
   | some (.str t) =>
     t = "breakfast" ∨ t = "lunch" ∨ t = "dinner" ∨ t = "snack"
   | _ => false) &&
  (match getField m "calories" with
   | some (.num q) => 0 ≤ q
   | _ => false)

/-- The plan shape claim C1 asserts: exactly 7 days, each with at least
one meal, every meal passing `strictMealOk`. -/
def strictPlanShape (p : JsonValue) : Bool :=
  match asArray (getField p "meals") with
  | some days =>
    (days.length = 7) && days.all (fun d =>
      match asArray (getField d "meals") with
      | some ms => (0 < ms.length) && ms.all strictMealOk
      | none => false)
  | none => false

/-- The amended per-meal shape: truthy name, truthy mealType, and a
calories field of number type — what the validator actually enforces. -/
def amendedMealOk (m : JsonValue) : Bool :=
  optTruthy (getField m "name") && optTruthy (getField m "mealType") &&
  (match getField m "calories" with
   | some (.num _) => true
   | _ => false)

/-- The amended plan shape: exactly 7 days, each day with at least one
meal, every meal passing `amendedMealOk`. -/
def amendedPlanShape (p : JsonValue) : Bool :=
  match asArray (getField p "meals") with
  | some days =>
    (days.length = 7) && days.all (fun d =>
      match asArray (getField d "meals") with
      | some ms => (0 < ms.length) && ms.all amendedMealOk
      | none => false)
  | none => false

/-- One day of the adversarial model output for the C1 counterexample:
a structurally valid day whose one meal has an unrecognized mealType and
negative calories. -/
def badDayText (i : Nat) : String :=
  "\x7b\"dayNumber\": " ++ toString (i + 1) ++
  ", \"meals\": [\x7b\"name\": \"Mystery Meal\", \"mealType\": \"brunch\", \"calories\": -5\x7d]\x7d"

/-- The adversarial model output for the C1 counterexample: 7 days that
pass the structure validator while violating the claimed meal shape. -/
def badAiText : String :=
  "\x7b\"meals\": [" ++ String.intercalate ", " ((List.range 7).map badDayText) ++ "]\x7d"

/-- A concrete request with the given meals-per-day, used by witnesses. -/
def exampleRequest (m : Nat) : DietPlanRequest :=
  { userProfile := exampleProfileC4
    preferences :=
      { dietType := "vegetarian", cuisinePreferences := ["indian"],
        tastePreferences := [], foodRestrictions := [],
        mealsPerDay := m, preferredMealTimes := [] } }

/-- The meal-type slate as claim C9 words it: breakfast/lunch/dinner,
plus one snack when more than 3 meals are requested and a second snack
when more than 4 are, truncated to the requested count. -/
def specMealSlate (mealsPerDay : Nat) : List String :=
  (["breakfast", "lunch", "dinner"] ++
   (if 3 < mealsPerDay then ["snack"] else []) ++
   (if 4 < mealsPerDay then ["snack"] else [])).take mealsPerDay

/-- The acceptance conditions of claim C3 on one meal value: a present
non-empty string name, a present non-empty string mealType, and a
calories field of number type; all other fields may be absent. -/
def acceptMealOk (m : JsonValue) : Bool :=
  (match getField m "name" with
   | some (.str n) => n ≠ ""
   | _ => false) &&
  (match getField m "mealType" with
   | some (.str t) => t ≠ ""
   | _ => false) &&
  (match getField m "calories" with
   | some (.num _) => true
   | _ => false)

/-- The acceptance conditions of claim C3 on one day value: a non-empty
meals array whose meals all pass `acceptMealOk`. -/
def acceptDayOk (d : JsonValue) : Bool :=
  match asArray (getField d "meals") with
  | some ms => (0 < ms.length) && ms.all acceptMealOk
  | none => false

/-- A minimal meal carrying only the three required fields. -/
def c3MinimalMeal : JsonValue :=
  .obj [("name", .str "Simple Meal"), ("mealType", .str "lunch"),
    ("calories", .num 300)]

/-- A day holding one minimal meal. -/
def c3GoodDay : JsonValue := .obj [("meals", .arr [c3MinimalMeal])]

/-- A day with an empty meals list. -/
def c3EmptyDay : JsonValue := .obj [("meals", .arr [])]

/-- A parsed object with only 6 days. -/
def c3Plan6 : JsonValue := .obj [("meals", .arr (List.replicate 6 c3GoodDay))]

/-- A 7-day object whose third day has an empty meals list. -/
def c3PlanEmptyDay3 : JsonValue :=
  .obj [("meals", .arr
    [c3GoodDay, c3GoodDay, c3EmptyDay, c3GoodDay, c3GoodDay, c3GoodDay, c3GoodDay])]

/-- A 7-day object of minimal meals only. -/
def c3MinimalPlan : JsonValue :=
  .obj [("meals", .arr (List.replicate 7 c3GoodDay))]

/-- First day of the six-meal fallback plan used by the C9 witness. -/
def c9Plan : GeneratedDietPlan :=
  buildFallbackPlan 2000 (exampleRequest 6).preferences exampleProfileC4

/-- Head day of `c9Plan` (the default is inert: the plan has 7 days). -/
def c9Day : DayPlan := c9Plan.meals.headD ⟨0, "", 0, []⟩

/-- Whether an `Except` result is a success. -/
def isOkE {α : Type} (e : Except String α) : Bool :=
  match e with
  | .ok _ => true
  | .error _ => false

/-- The truncated text of the C6 counterexample, before the trailing
comma: a complete first field, then a second field cut off mid-object. -/
def c6Base : String := "\x7b\"a\": \x7b\x7d, \"b\": \x7b\"c\": 1"

/-- The broken model output: `c6Base` plus one trailing comma; relative to
`c6WellFormed` it is missing its two closing braces. -/
def c6Broken : String := c6Base ++ ","

/-- The well-formed equivalent of `c6Broken`. -/
def c6WellFormed : String := c6Base ++ "\x7d\x7d"

/-- Whether a parsed plan has a truthy `b` field; used to distinguish the
repaired object from the well-formed one. -/
def hasTruthyB (e : Except String JsonValue) : Except String Bool :=
  e.map (fun v => optTruthy (getField v "b"))

/-- Concrete truncation used to witness the repair theorem: an object cut
off after a nested field value, with no closing brace present. -/
def c6wU : List Char := "\x7b\"a\": \x7b\"b\": 1".data

/-! ## Theorems -/

/-- Claim C4: the computed calorie target equals
round(BMR * activityFactor + goalAdjustment) with the claimed factor table
and goal adjustments, and on the concrete male 30y/180cm/80kg sedentary
maintenance profile BMR = 1780 and the target is 2136. -/
theorem calorie_target_formula :
    (∀ (bmr : ℚ) (activityLevel goal : String),
      calculateDailyCalories bmr activityLevel goal =
        round (bmr * specActivityFactor activityLevel + specGoalAdjustment goal)) ∧
    calculateBMR exampleProfileC4 = 1780 ∧
    calculateDailyCalories (calculateBMR exampleProfileC4) "sedentary" "maintenance" = 2136 := by
  refine ⟨?_, by norm_num [calculateBMR, exampleProfileC4], ?_⟩
  case refine_2 =>
    norm_num [calculateBMR, exampleProfileC4, calculateDailyCalories,
      activityMultiplier, jsRound]
    decide
  intro bmr activityLevel goal
  unfold calculateDailyCalories specGoalAdjustment specActivityFactor activityMultiplier jsRound
  by_cases h1 : goal = "weight_loss"
  · rw [if_pos h1, if_pos h1]
    congr 1
    ring
  · rw [if_neg h1, if_neg h1]
    by_cases h2 : goal = "muscle_gain"
    · rw [if_pos h2, if_pos h2]
    · rw [if_neg h2, if_neg h2]
      congr 1
      ring

/-- Claim C5: on `prefix \x7b"a": \x7b"b": "\x7d"\x7d, "c": 1\x7d suffix`
the balanced-brace extractor returns the full outer object, including the
literal closing brace inside the quoted string. -/
theorem extract_balanced_braces :
    extractJsonFromText "prefix \x7b\"a\": \x7b\"b\": \"\x7d\"\x7d, \"c\": 1\x7d suffix" =
      "\x7b\"a\": \x7b\"b\": \"\x7d\"\x7d, \"c\": 1\x7d" := by
  rfl

theorem takeToLast_of_not_mem {c : Char} :
    ∀ {cs : List Char}, c ∉ cs → takeToLast c cs = none
  | [], _ => rfl
  | x :: xs, h => by
    have hx : x ≠ c := fun he => h (he ▸ List.mem_cons_self x xs)
    have hxs : c ∉ xs := fun hm => h (List.mem_cons_of_mem x hm)
    simp only [takeToLast]
    rw [takeToLast_of_not_mem hxs]
    simp [hx]

theorem takeToLast_concat_self (c : Char) :
    ∀ (cs : List Char), takeToLast c (cs ++ [c]) = some (cs ++ [c])
  | [] => by simp [takeToLast]
  | x :: xs => by
    rw [List.cons_append]
    simp only [takeToLast]
    rw [takeToLast_concat_self c xs]

theorem takeToLast_append_of_not_mem {c : Char} {ds : List Char} (h : c ∉ ds) :
    ∀ (cs : List Char), takeToLast c (cs ++ ds) = takeToLast c cs
  | [] => by simp [takeToLast, takeToLast_of_not_mem h]
  | x :: xs => by
    rw [List.cons_append]
    simp only [takeToLast]
    rw [takeToLast_append_of_not_mem h xs]

theorem getLast?_ne_nil {cs : List Char} {a : Char} (h : cs.getLast? = some a) :
    cs ≠ [] := by
  intro he
  subst he
  simp at h

theorem dropLast_append_of_getLast? {cs : List Char} {a : Char}
    (h : cs.getLast? = some a) : cs.dropLast ++ [a] = cs := by
  have h1 : cs ≠ [] := getLast?_ne_nil h
  have h2 : cs.getLast h1 = a := by
    rw [List.getLast?_eq_getLast cs h1] at h
    exact Option.some_injective _ h
  rw [← h2]
  exact List.dropLast_append_getLast h1

theorem fixStepStart_of_head {cs : List Char} (h : cs.head? = some '\x7b') :
    fixStepStart cs = cs := by
  unfold fixStepStart
  rw [if_pos h]

theorem fixStepEnd_of_getLast {cs : List Char} (h : cs.getLast? = some '\x7d') :
    fixStepEnd cs = cs := by
  unfold fixStepEnd
  rw [if_pos h]

theorem fixStepEnd_of_not_mem {cs : List Char} (h : '\x7d' ∉ cs) :
    fixStepEnd cs = cs := by
  unfold fixStepEnd
  have hend : cs.getLast? ≠ some '\x7d' := by
    intro hc
    obtain ⟨hne, heq⟩ :=
      List.mem_getLast?_eq_getLast (l := cs) (x := '\x7d') (by simp [hc])
    exact h (heq ▸ List.getLast_mem hne)
  rw [if_neg hend, takeToLast_of_not_mem h]

theorem fixStepEnd_concat_comma {w : List Char} (h : w.getLast? = some '\x7d') :
    fixStepEnd (w ++ [',']) = w := by
  unfold fixStepEnd
  have hg : (w ++ [',']).getLast? = some ',' := List.getLast?_concat _
  rw [if_neg (by rw [hg]; decide)]
  have hstep : takeToLast '\x7d' (w ++ [',']) = some w := by
    rw [takeToLast_append_of_not_mem (by decide)]
    conv_lhs => rw [← dropLast_append_of_getLast? h]
    rw [takeToLast_concat_self, dropLast_append_of_getLast? h]
  rw [hstep]

theorem fixStepComma_of_getLast_ne {cs : List Char} (h : cs.getLast? ≠ some ',') :
    fixStepComma cs = cs := by
  unfold fixStepComma
  rw [if_neg h]

theorem fixStepComma_concat {u : List Char} :
    fixStepComma (u ++ [',']) = u := by
  unfold fixStepComma
  rw [if_pos (List.getLast?_concat _), List.dropLast_concat]

theorem fixStepBraces_appends {u : List Char} {k : Nat}
    (h : u.count '\x7d' + k = u.count '\x7b') :
    fixStepBraces u = u ++ List.replicate k '\x7d' := by
  unfold fixStepBraces
  rcases Nat.eq_zero_or_pos k with hk | hk
  · subst hk
    rw [if_neg (by omega)]
    simp
  · rw [if_pos (by omega)]
    have hcount : u.count '\x7b' - u.count '\x7d' = k := by omega
    rw [hcount]

theorem fixStepBrackets_of_balanced {u : List Char}
    (h : u.count ']' = u.count '[') :
    fixStepBrackets u = u := by
  unfold fixStepBrackets
  rw [if_neg (by omega)]

theorem count_append_replicate_brace (c : Char) (u : List Char) (k : Nat)
    (hne : c ≠ '\x7d') :
    (u ++ List.replicate k '\x7d').count c = u.count c := by
  rw [List.count_append, List.count_replicate]
  have : ('\x7d' == c) = false := by
    simp [BEq.beq]
    exact fun he => hne he.symm
  rw [this]
  simp

/-- The repair block leaves a brace-led, comma-free-tailed text alone up to
appending the closing braces its counts call for. -/
theorem fixJson_appends_closers (u : List Char) (k : Nat)
    (h0 : u.head? = some '\x7b')
    (h1 : u.getLast? = some '\x7d' ∨ '\x7d' ∉ u)
    (h2 : u.getLast? ≠ some ',')
    (h3 : u.count '\x7d' + k = u.count '\x7b')
    (h4 : u.count ']' = u.count '[') :
    fixJsonList u = u ++ List.replicate k '\x7d' := by
  unfold fixJsonList
  rw [fixStepStart_of_head h0]
  rcases h1 with h1 | h1
  · rw [fixStepEnd_of_getLast h1]
    rw [fixStepComma_of_getLast_ne h2, fixStepBraces_appends h3]
    exact fixStepBrackets_of_balanced (by
      rw [count_append_replicate_brace _ _ _ (by decide),
        count_append_replicate_brace _ _ _ (by decide)]
      exact h4)
  · rw [fixStepEnd_of_not_mem h1]
    rw [fixStepComma_of_getLast_ne h2, fixStepBraces_appends h3]
    exact fixStepBrackets_of_balanced (by
      rw [count_append_replicate_brace _ _ _ (by decide),
        count_append_replicate_brace _ _ _ (by decide)]
      exact h4)

/-- The repair block turns a complete object followed by one trailing
comma back into that object (the trailing comma is removed by the
truncate-to-last-brace step). -/
theorem fixJson_drops_trailing_comma (w : List Char)
    (h0 : w.head? = some '\x7b')
    (h1 : w.getLast? = some '\x7d')
    (h3 : w.count '\x7d' = w.count '\x7b')
    (h4 : w.count ']' = w.count '[') :
    fixJsonList (w ++ [',']) = w := by
  unfold fixJsonList
  have hh : (w ++ [',']).head? = some '\x7b' := by
    cases w with
    | nil => simp at h0
    | cons a tl => simpa using h0
  rw [fixStepStart_of_head hh, fixStepEnd_concat_comma h1,
    fixStepComma_of_getLast_ne (by rw [h1]; decide),
    fixStepBraces_appends (k := 0) (by omega)]
  simp only [List.replicate, List.append_nil]
  exact fixStepBrackets_of_balanced h4

/-- The repair block on a brace-free truncation followed by one trailing
comma: the comma is dropped and the missing closing braces are appended. -/
theorem fixJson_comma_then_closers (u : List Char) (k : Nat)
    (h0 : u.head? = some '\x7b')
    (h1 : '\x7d' ∉ u)
    (h3 : u.count '\x7d' + k = u.count '\x7b')
    (h4 : u.count ']' = u.count '[') :
    fixJsonList (u ++ [',']) = u ++ List.replicate k '\x7d' := by
  unfold fixJsonList
  have hh : (u ++ [',']).head? = some '\x7b' := by
    cases u with
    | nil => simp at h0
    | cons a tl => simpa using h0
  have hnm : '\x7d' ∉ u ++ [','] := by
    intro hm
    rcases List.mem_append.mp hm with hm | hm
    · exact h1 hm
    · simp at hm
  rw [fixStepStart_of_head hh, fixStepEnd_of_not_mem hnm,
    fixStepComma_concat, fixStepBraces_appends h3]
  exact fixStepBrackets_of_balanced (by
    rw [count_append_replicate_brace _ _ _ (by decide),
      count_append_replicate_brace _ _ _ (by decide)]
    exact h4)

theorem getField_mealJson_name (m : GeneratedMeal) :
    getField m.toJson "name" = some (.str m.name) := rfl

theorem getField_mealJson_mealType (m : GeneratedMeal) :
    getField m.toJson "mealType" = some (.str m.mealType) := rfl

theorem getField_mealJson_calories (m : GeneratedMeal) :
    getField m.toJson "calories" = some (.num m.calories) := rfl

theorem getField_dayJson_meals (d : DayPlan) :
    getField d.toJson "meals" =
      some (.arr (d.meals.map GeneratedMeal.toJson)) := rfl

theorem getField_planJson_meals (p : GeneratedDietPlan) :
    getField p.toJson "meals" =
      some (.arr (p.meals.map DayPlan.toJson)) := rfl

theorem getField_planJson_totalCalories (p : GeneratedDietPlan) :
    getField p.toJson "totalCalories" = some (.num p.totalCalories) := rfl

theorem getD_template_name_ne (l : List MealTemplate) (i : Nat)
    (h0 : 0 < l.length)
    (hall : l.all (fun t => t.name ≠ "") = true) :
    ((l.get? (i % l.length)).getD emptyTemplate).name ≠ "" := by
  have hlt : i % l.length < l.length := Nat.mod_lt _ h0
  rw [List.get?_eq_get hlt]
  simp only [Option.getD_some]
  have := List.all_eq_true.mp hall _ (List.get_mem l _ hlt)
  simpa using this

theorem templateAt_name_ne (mt : String) (i : Nat) :
    (templateAt mt i).name ≠ "" := by
  unfold templateAt mealTemplatesFor
  split_ifs <;>
    exact getD_template_name_ne _ _ (by decide) (by decide)

theorem mem_fallbackMealTypes {m : Nat} {mt : String}
    (h : mt ∈ fallbackMealTypes m) :
    mt = "breakfast" ∨ mt = "lunch" ∨ mt = "dinner" ∨ mt = "snack" := by
  unfold fallbackMealTypes at h
  rcases List.mem_append.mp h with h | h
  · rcases List.mem_append.mp h with h | h
    · simp at h
      tauto
    · split_ifs at h
      all_goals simp at h
      tauto
  · split_ifs at h
    all_goals simp at h
    tauto

theorem fallbackMealTypes_length (m : Nat) :
    3 ≤ (fallbackMealTypes m).length := by
  unfold fallbackMealTypes
  split_ifs <;> simp

theorem mealFieldsOk_fallback (cpm : ℤ) (prefs : DietPreferences)
    (i : Nat) (mt : String) (hmt : mt ∈ fallbackMealTypes prefs.mealsPerDay) :
    mealFieldsOk (mkFallbackMeal cpm prefs i mt).toJson = true := by
  unfold mealFieldsOk
  rw [getField_mealJson_name, getField_mealJson_mealType,
    getField_mealJson_calories]
  have hname : (mkFallbackMeal cpm prefs i mt).name ≠ "" :=
    templateAt_name_ne mt i
  have hmt2 : mt ≠ "" := by
    rcases mem_fallbackMealTypes hmt with h | h | h | h <;> subst h <;> decide
  have hmt3 : (mkFallbackMeal cpm prefs i mt).mealType ≠ "" := hmt2
  simp [optTruthy, jsTruthy, hname, hmt3, GeneratedMeal.toJson]

theorem dayOk_fallback (dc : ℚ) (cpm : ℤ) (prefs : DietPreferences)
    (i : Nat) (dn : String) (h : 1 ≤ prefs.mealsPerDay) :
    dayOk (mkFallbackDay dc cpm prefs i dn).toJson = true := by
  unfold dayOk
  rw [getField_dayJson_meals]
  simp only [asArray, Bool.and_eq_true]
  refine ⟨rfl, ?_, ?_⟩
  · have h3 := fallbackMealTypes_length prefs.mealsPerDay
    simp only [mkFallbackDay, List.length_map, List.length_take]
    simp only [decide_eq_true_eq]
    omega
  · rw [List.all_eq_true]
    intro mj hmj
    rw [List.mem_map] at hmj
    obtain ⟨meal, hmeal, rfl⟩ := hmj
    simp only [mkFallbackDay, List.mem_map] at hmeal
    obtain ⟨mt, hmt, rfl⟩ := hmeal
    exact mealFieldsOk_fallback cpm prefs i mt (List.take_subset _ _ hmt)

theorem validate_fallback (dc : ℚ) (prefs : DietPreferences)
    (profile : UserProfile) (h : 1 ≤ prefs.mealsPerDay) :
    validateDietPlanStructure (buildFallbackPlan dc prefs profile).toJson = true := by
  unfold validateDietPlanStructure
  rw [getField_planJson_meals]
  simp only [asArray, Bool.and_eq_true]
  refine ⟨⟨rfl, rfl⟩, ?_, ?_⟩
  · simp [buildFallbackPlan, fallbackDayNames]
  · rw [List.all_eq_true]
    intro dj hdj
    rw [List.mem_map] at hdj
    obtain ⟨day, hday, rfl⟩ := hdj
    simp only [buildFallbackPlan, List.mem_map] at hday
    obtain ⟨⟨i, dn⟩, hmem, rfl⟩ := hday
    exact dayOk_fallback _ _ prefs i dn h

theorem fallback_ok (dc : ℚ) (prefs : DietPreferences)
    (profile : UserProfile) (h : 1 ≤ prefs.mealsPerDay) :
    getComprehensiveFallbackDietPlan dc prefs profile =
      .ok (buildFallbackPlan dc prefs profile).toJson := by
  unfold getComprehensiveFallbackDietPlan
  rw [if_pos (validate_fallback dc prefs profile h)]

theorem fallback_error_msg (dc : ℚ) (prefs : DietPreferences)
    (profile : UserProfile) (e : String)
    (h : getComprehensiveFallbackDietPlan dc prefs profile = .error e) :
    e = "Fallback diet plan generation failed - this should never happen" := by
  simp only [getComprehensiveFallbackDietPlan] at h
  split_ifs at h
  simp only [Except.error.injEq] at h
  exact h.symm

theorem generate_of_makeRequest_error (envKey : Option String)
    (net : Except String String) (request : DietPlanRequest) (e : String)
    (hmk : makeRequest (resolveApiKey envKey) net = .error e) :
    generateDietPlan envKey net request =
      getComprehensiveFallbackDietPlan ((dailyCaloriesFor request : ℚ))
        request.preferences request.userProfile := by
  simp only [generateDietPlan, hmk]

theorem generate_of_parse_error (envKey : Option String)
    (net : Except String String) (request : DietPlanRequest)
    (t e : String)
    (hmk : makeRequest (resolveApiKey envKey) net = .ok t)
    (hp : validateAndParseJson (cleanJsonResponse t) = .error e) :
    generateDietPlan envKey net request =
      getComprehensiveFallbackDietPlan ((dailyCaloriesFor request : ℚ))
        request.preferences request.userProfile := by
  simp only [generateDietPlan, hmk, hp]
  cases hF : getComprehensiveFallbackDietPlan ((dailyCaloriesFor request : ℚ))
      request.preferences request.userProfile with
  | error e2 => simp
  | ok p => simp

theorem generate_of_invalid_shape (envKey : Option String)
    (net : Except String String) (request : DietPlanRequest)
    (t : String) (v : JsonValue)
    (hmk : makeRequest (resolveApiKey envKey) net = .ok t)
    (hp : validateAndParseJson (cleanJsonResponse t) = .ok v)
    (hv : validateDietPlanStructure v = false) :
    generateDietPlan envKey net request =
      getComprehensiveFallbackDietPlan ((dailyCaloriesFor request : ℚ))
        request.preferences request.userProfile := by
  simp only [generateDietPlan, hmk, hp, hv]
  cases hF : getComprehensiveFallbackDietPlan ((dailyCaloriesFor request : ℚ))
      request.preferences request.userProfile with
  | error e2 => simp
  | ok p => simp

theorem generate_of_valid (envKey : Option String)
    (net : Except String String) (request : DietPlanRequest)
    (t : String) (v : JsonValue)
    (hmk : makeRequest (resolveApiKey envKey) net = .ok t)
    (hp : validateAndParseJson (cleanJsonResponse t) = .ok v)
    (hv : validateDietPlanStructure v = true) :
    generateDietPlan envKey net request = .ok v := by
  simp only [generateDietPlan, hmk, hp, hv]
  simp

theorem amended_of_validate {p : JsonValue}
    (h : validateDietPlanStructure p = true) : amendedPlanShape p = true := by
  unfold validateDietPlanStructure at h
  unfold amendedPlanShape
  rcases hm : asArray (getField p "meals") with _ | days
  · rw [hm] at h
    simp at h
  · rw [hm] at h
    simp only [Bool.and_eq_true] at h
    rcases h with ⟨-, hlen, hall⟩
    simp only [Bool.and_eq_true]
    refine ⟨hlen, ?_⟩
    rw [List.all_eq_true] at hall ⊢
    intro d hd
    have hday := hall d hd
    unfold dayOk at hday
    simp only [Bool.and_eq_true] at hday
    rcases hday with ⟨-, hday⟩
    rcases hdm : asArray (getField d "meals") with _ | ms
    · rw [hdm] at hday
      simp at hday
    · rw [hdm] at hday
      simp only [Bool.and_eq_true] at hday
      rcases hday with ⟨hlen2, hms⟩
      simp only [Bool.and_eq_true]
      refine ⟨hlen2, ?_⟩
      rw [List.all_eq_true] at hms ⊢
      intro meal hmeal
      have h3 := hms meal hmeal
      unfold mealFieldsOk at h3
      unfold amendedMealOk
      simp only [Bool.and_eq_true] at h3 ⊢
      exact ⟨⟨h3.1.1.2, h3.1.2⟩, h3.2⟩

/-- Claim C6 (amended): the repair-and-retry stage recovers a text that is
well-formed except for one trailing comma and missing closing braces,
yielding exactly the object of the well-formed equivalent, provided that
the truncated text starts with a brace and the part kept is not cut short
by the truncate-to-last-brace step: either no brace or comma defect at the
tail (closers only, part 1), or a complete object followed by the comma
(part 2), or a closing-brace-free truncation followed by the comma
(part 3).  Part 4: when the retry also fails, the error propagated carries
the original direct-parse error. -/
theorem repair_and_retry :
    (∀ (u : List Char) (k : Nat) (v : JsonValue) (d : String),
      u.head? = some '\x7b' →
      (u.getLast? = some '\x7d' ∨ '\x7d' ∉ u) →
      u.getLast? ≠ some ',' →
      u.count '\x7d' + k = u.count '\x7b' →
      u.count ']' = u.count '[' →
      jsParseList (u ++ List.replicate k '\x7d') = .ok v →
      jsParse (String.mk u) = .error d →
      validateAndParseJson (String.mk u) = .ok v) ∧
    (∀ (w : List Char) (v : JsonValue) (d : String),
      w.head? = some '\x7b' →
      w.getLast? = some '\x7d' →
      w.count '\x7d' = w.count '\x7b' →
      w.count ']' = w.count '[' →
      jsParseList w = .ok v →
      jsParse (String.mk (w ++ [','])) = .error d →
      validateAndParseJson (String.mk (w ++ [','])) = .ok v) ∧
    (∀ (u : List Char) (k : Nat) (v : JsonValue) (d : String),
      u.head? = some '\x7b' →
      '\x7d' ∉ u →
      u.count '\x7d' + k = u.count '\x7b' →
      u.count ']' = u.count '[' →
      jsParseList (u ++ List.replicate k '\x7d') = .ok v →
      jsParse (String.mk (u ++ [','])) = .error d →
      validateAndParseJson (String.mk (u ++ [','])) = .ok v) ∧
    (∀ (s : String) (d e : String),
      jsParse s = .error d →
      jsParse (fixJson s) = .error e →
      validateAndParseJson s = .error ("JSON parsing failed: " ++ d)) := by
  refine ⟨?_, ?_, ?_, ?_⟩
  · intro u k v d h0 h1 h2 h3 h4 hok hd
    have hfix : fixJson (String.mk u) = String.mk (u ++ List.replicate k '\x7d') :=
      congrArg String.mk (fixJson_appends_closers u k h0 h1 h2 h3 h4)
    have hfp : jsParse (fixJson (String.mk u)) = .ok v := by
      rw [hfix]
      exact hok
    simp only [validateAndParseJson, hd, hfp]
  · intro w v d h0 h1 h3 h4 hok hd
    have hfix : fixJson (String.mk (w ++ [','])) = String.mk w :=
      congrArg String.mk (fixJson_drops_trailing_comma w h0 h1 h3 h4)
    have hfp : jsParse (fixJson (String.mk (w ++ [',']))) = .ok v := by
      rw [hfix]
      exact hok
    simp only [validateAndParseJson, hd, hfp]
  · intro u k v d h0 h1 h3 h4 hok hd
    have hfix : fixJson (String.mk (u ++ [','])) =
        String.mk (u ++ List.replicate k '\x7d') :=
      congrArg String.mk (fixJson_comma_then_closers u k h0 h1 h3 h4)
    have hfp : jsParse (fixJson (String.mk (u ++ [',']))) = .ok v := by
      rw [hfix]
      exact hok
    simp only [validateAndParseJson, hd, hfp]
  · intro s d e hd he
    simp only [validateAndParseJson, hd, he]

/-- Claim C6 counterexample: `c6Broken` is well-formed except for one
trailing comma and two missing closing braces, its direct parse fails, and
the repair-and-retry stage then SUCCEEDS — but the truncate-to-last-brace
step cuts the text at the early brace of the empty inner object, so the
resulting object lacks the `b` field that parsing the well-formed
equivalent produces: the repaired object is not the well-formed one. -/
theorem repair_and_retry_counterexample :
    c6Broken = c6Base ++ "," ∧
    c6WellFormed = c6Base ++ "\x7d\x7d" ∧
    isOkE (jsParse c6Broken) = false ∧
    isOkE (validateAndParseJson c6Broken) = true ∧
    hasTruthyB (jsParse c6WellFormed) = .ok true ∧
    hasTruthyB (validateAndParseJson c6Broken) = .ok false :=
  ⟨rfl, rfl, rfl, rfl, rfl, rfl⟩

/-- Witness for `repair_and_retry`: part 3 applied to a concrete
truncation missing two closing braces plus a trailing comma, and part 4
applied to a concrete unparseable text. -/
theorem repair_and_retry_witness :
    (c6wU.head? = some '\x7b' ∧
     '\x7d' ∉ c6wU ∧
     c6wU.count '\x7d' + 2 = c6wU.count '\x7b' ∧
     c6wU.count ']' = c6wU.count '[' ∧
     jsParseList (c6wU ++ List.replicate 2 '\x7d') =
       .ok (.obj [("a", .obj [("b", .num 1)])]) ∧
     jsParse (String.mk (c6wU ++ [','])) = .error "Unexpected end of JSON input" ∧
     validateAndParseJson (String.mk (c6wU ++ [','])) =
       .ok (.obj [("a", .obj [("b", .num 1)])])) ∧
    (jsParse "hello" = .error "Unexpected end of JSON input" ∧
     jsParse (fixJson "hello") = .error "Unexpected end of JSON input" ∧
     validateAndParseJson "hello" =
       .error ("JSON parsing failed: " ++ "Unexpected end of JSON input")) :=
  ⟨⟨rfl, by decide, by decide, by decide, rfl, rfl,
    repair_and_retry.2.2.1 c6wU 2 (.obj [("a", .obj [("b", .num 1)])])
      "Unexpected end of JSON input" rfl (by decide) (by decide) (by decide) rfl rfl⟩,
   ⟨rfl, rfl,
    repair_and_retry.2.2.2 "hello" "Unexpected end of JSON input"
      "Unexpected end of JSON input" rfl rfl⟩⟩


theorem obj_of_getField {p : JsonValue} {k : String} {v : JsonValue}
    (h : getField p k = some v) : ∃ fields, p = .obj fields := by
  cases p with
  | obj fields => exact ⟨fields, rfl⟩
  | null => simp [getField] at h
  | bool b => simp [getField] at h
  | num q => simp [getField] at h
  | str s => simp [getField] at h
  | arr xs => simp [getField] at h

theorem asArray_eq_some {o : Option JsonValue} {ms : List JsonValue}
    (h : asArray o = some ms) : o = some (.arr ms) := by
  cases o with
  | none => simp [asArray] at h
  | some v => cases v <;> simp_all [asArray]

/-- Claim C2: every failure of the model-request stage, of the
parse-and-repair stage, and of the shape validation is converted at the
orchestration level into the fallback-generation result (parts 1-3), and
the only error `generateDietPlan` ever propagates is the fallback
generator failing its own self-validation (part 4). -/
theorem pipeline_error_recovery :
    (∀ (envKey : Option String) (net : Except String String)
        (request : DietPlanRequest) (e : String),
      makeRequest (resolveApiKey envKey) net = .error e →
      generateDietPlan envKey net request =
        getComprehensiveFallbackDietPlan ((dailyCaloriesFor request : ℚ))
          request.preferences request.userProfile) ∧
    (∀ (envKey : Option String) (net : Except String String)
        (request : DietPlanRequest) (t e : String),
      makeRequest (resolveApiKey envKey) net = .ok t →
      validateAndParseJson (cleanJsonResponse t) = .error e →
      generateDietPlan envKey net request =
        getComprehensiveFallbackDietPlan ((dailyCaloriesFor request : ℚ))
          request.preferences request.userProfile) ∧
    (∀ (envKey : Option String) (net : Except String String)
        (request : DietPlanRequest) (t : String) (v : JsonValue),
      makeRequest (resolveApiKey envKey) net = .ok t →
      validateAndParseJson (cleanJsonResponse t) = .ok v →
      validateDietPlanStructure v = false →
      generateDietPlan envKey net request =
        getComprehensiveFallbackDietPlan ((dailyCaloriesFor request : ℚ))
          request.preferences request.userProfile) ∧
    (∀ (envKey : Option String) (net : Except String String)
        (request : DietPlanRequest) (e : String),
      generateDietPlan envKey net request = .error e →
      e = "Fallback diet plan generation failed - this should never happen") := by
  refine ⟨generate_of_makeRequest_error, generate_of_parse_error,
    generate_of_invalid_shape, ?_⟩
  intro envKey net request e h
  rcases hmk : makeRequest (resolveApiKey envKey) net with emk | t
  · rw [generate_of_makeRequest_error _ _ _ _ hmk] at h
    exact fallback_error_msg _ _ _ _ h
  · rcases hp : validateAndParseJson (cleanJsonResponse t) with ep | v
    · rw [generate_of_parse_error _ _ _ _ _ hmk hp] at h
      exact fallback_error_msg _ _ _ _ h
    · cases hv : validateDietPlanStructure v
      · rw [generate_of_invalid_shape _ _ _ _ _ hmk hp hv] at h
        exact fallback_error_msg _ _ _ _ h
      · rw [generate_of_valid _ _ _ _ _ hmk hp hv] at h
        simp at h

/-- Witness for `pipeline_error_recovery`: part 1 at a missing key, and
part 4 at a request whose zero meals-per-day makes the fallback fail its
own validation, the only propagating error. -/
theorem pipeline_error_recovery_witness :
    (makeRequest (resolveApiKey none) (.ok "ignored") = .error "API_KEY_MISSING" ∧
     generateDietPlan none (.ok "ignored") (exampleRequest 3) =
       getComprehensiveFallbackDietPlan
         ((dailyCaloriesFor (exampleRequest 3) : ℚ))
         (exampleRequest 3).preferences (exampleRequest 3).userProfile) ∧
    (generateDietPlan none (.ok "x") (exampleRequest 0) =
       .error "Fallback diet plan generation failed - this should never happen" ∧
     "Fallback diet plan generation failed - this should never happen" =
       "Fallback diet plan generation failed - this should never happen") :=
  ⟨⟨rfl, pipeline_error_recovery.1 none (.ok "ignored") (exampleRequest 3)
      "API_KEY_MISSING" rfl⟩,
   ⟨rfl, pipeline_error_recovery.2.2.2 none (.ok "x") (exampleRequest 0)
      "Fallback diet plan generation failed - this should never happen" rfl⟩⟩

/-- Claim C1 (amended): for every credential state, every network outcome
and every request with at least one meal per day, `generateDietPlan`
returns (never throws) a plan with exactly 7 days, each day with at least
one meal, and every meal carrying a truthy name, a truthy mealType and a
calories field of number type — on the AI path as well as the fallback
path.  (The original claim's `recognized mealType` and `calories ≥ 0` are
refuted by `generate_plan_shape_counterexample`.) -/
theorem generate_plan_shape :
    ∀ (envKey : Option String) (net : Except String String)
      (request : DietPlanRequest),
      1 ≤ request.preferences.mealsPerDay →
      ∃ p, generateDietPlan envKey net request = .ok p ∧
        amendedPlanShape p = true := by
  intro envKey net request h
  rcases hmk : makeRequest (resolveApiKey envKey) net with emk | t
  · rw [generate_of_makeRequest_error _ _ _ _ hmk, fallback_ok _ _ _ h]
    exact ⟨_, rfl, amended_of_validate (validate_fallback _ _ _ h)⟩
  · rcases hp : validateAndParseJson (cleanJsonResponse t) with ep | v
    · rw [generate_of_parse_error _ _ _ _ _ hmk hp, fallback_ok _ _ _ h]
      exact ⟨_, rfl, amended_of_validate (validate_fallback _ _ _ h)⟩
    · cases hv : validateDietPlanStructure v
      · rw [generate_of_invalid_shape _ _ _ _ _ hmk hp hv, fallback_ok _ _ _ h]
        exact ⟨_, rfl, amended_of_validate (validate_fallback _ _ _ h)⟩
      · rw [generate_of_valid _ _ _ _ _ hmk hp hv]
        exact ⟨v, rfl, amended_of_validate hv⟩

/-- Claim C1 counterexample: a model response that passes the structure
validator but whose meals carry the unrecognized mealType `brunch` and
calories `-5` is returned as-is by `generateDietPlan`, so the returned
plan violates the claimed recognized-mealType and calories-non-negative
conditions. -/
theorem generate_plan_shape_counterexample :
    isOkE (generateDietPlan (some "configured-key") (.ok badAiText)
      (exampleRequest 3)) = true ∧
    (match generateDietPlan (some "configured-key") (.ok badAiText)
        (exampleRequest 3) with
     | .ok p => strictPlanShape p
     | .error _ => true) = false :=
  ⟨rfl, rfl⟩

/-- Witness for `generate_plan_shape` at a concrete missing-key request. -/
theorem generate_plan_shape_witness :
    1 ≤ (exampleRequest 3).preferences.mealsPerDay ∧
    ∃ p, generateDietPlan none (.ok "ignored") (exampleRequest 3) = .ok p ∧
      amendedPlanShape p = true :=
  ⟨by decide, generate_plan_shape none (.ok "ignored") (exampleRequest 3) (by decide)⟩

/-- Claim C8: for 3 to 6 meals per day the fallback generator returns
without throwing and its plan passes the structure validator, so the
fatal self-validation branch is unreachable under this precondition. -/
theorem fallback_never_fails :
    ∀ (dc : ℚ) (prefs : DietPreferences) (profile : UserProfile),
      3 ≤ prefs.mealsPerDay → prefs.mealsPerDay ≤ 6 →
      ∃ p, getComprehensiveFallbackDietPlan dc prefs profile = .ok p ∧
        validateDietPlanStructure p = true := by
  intro dc prefs profile h3 _
  have h1 : 1 ≤ prefs.mealsPerDay := by omega
  rw [fallback_ok dc prefs profile h1]
  exact ⟨_, rfl, validate_fallback dc prefs profile h1⟩

/-- Witness for `fallback_never_fails` at four meals per day. -/
theorem fallback_never_fails_witness :
    3 ≤ (exampleRequest 4).preferences.mealsPerDay ∧
    (exampleRequest 4).preferences.mealsPerDay ≤ 6 ∧
    ∃ p, getComprehensiveFallbackDietPlan 2000 (exampleRequest 4).preferences
        exampleProfileC4 = .ok p ∧
      validateDietPlanStructure p = true :=
  ⟨by decide, by decide,
   fallback_never_fails 2000 (exampleRequest 4).preferences exampleProfileC4
     (by decide) (by decide)⟩

/-- Claim C7 (amended): when the model client raises the missing-API-key
error, `generateDietPlan` returns the fallback plan: exactly 7 days, 3
meals per day for the default mealsPerDay of 3, and a `totalCalories`
field equal to the caloric-model output for the profile.  No
`aiGenerated=false` signal exists anywhere: the caller records the plan
with `ai_generated` set to the literal `true`
(see `apikey_missing_counterexample`). -/
theorem apikey_missing_fallback :
    ∀ (envKey : Option String) (net : Except String String)
      (request : DietPlanRequest),
      makeRequest (resolveApiKey envKey) net = .error "API_KEY_MISSING" →
      request.preferences.mealsPerDay = 3 →
      ∃ p, generateDietPlan envKey net request = .ok p ∧
        (planDays p).length = 7 ∧
        (∀ d ∈ planDays p, (dayMeals d).length = 3) ∧
        getField p "totalCalories" =
          some (.num ((dailyCaloriesFor request : ℚ))) ∧
        lookupLast (planInsertFromGenerated none p) "ai_generated" =
          some (.bool true) := by
  intro envKey net request hmk hm
  have h1 : 1 ≤ request.preferences.mealsPerDay := by omega
  rw [generate_of_makeRequest_error _ _ _ _ hmk, fallback_ok _ _ _ h1]
  refine ⟨_, rfl, ?_, ?_, ?_, ?_⟩
  · simp only [planDays, getField_planJson_meals, asArray, Option.getD_some]
    simp [buildFallbackPlan, fallbackDayNames]
  · intro d hd
    simp only [planDays, getField_planJson_meals, asArray,
      Option.getD_some] at hd
    rw [List.mem_map] at hd
    obtain ⟨day, hday, rfl⟩ := hd
    simp only [buildFallbackPlan, List.mem_map] at hday
    obtain ⟨⟨i, dn⟩, -, rfl⟩ := hday
    simp only [dayMeals, getField_dayJson_meals, asArray, Option.getD_some,
      List.length_map]
    simp [mkFallbackDay, hm, fallbackMealTypes]
  · exact getField_planJson_totalCalories _
  · rfl

/-- Claim C7 counterexample: with no API key configured the pipeline does
return a (fallback) plan, but the record the caller creates for it
carries `ai_generated = true` — there is no `aiGenerated=false`-equivalent
signal for the fallback path. -/
theorem apikey_missing_counterexample :
    isOkE (generateDietPlan none (.ok "ignored") (exampleRequest 3)) = true ∧
    (match generateDietPlan none (.ok "ignored") (exampleRequest 3) with
     | .ok p => lookupLast (planInsertFromGenerated none p) "ai_generated"
     | .error _ => none) = some (.bool true) :=
  ⟨rfl, rfl⟩

/-- Witness for `apikey_missing_fallback` at a concrete unset key. -/
theorem apikey_missing_fallback_witness :
    makeRequest (resolveApiKey none) (.ok "ignored") =
      .error "API_KEY_MISSING" ∧
    (exampleRequest 3).preferences.mealsPerDay = 3 ∧
    ∃ p, generateDietPlan none (.ok "ignored") (exampleRequest 3) = .ok p ∧
      (planDays p).length = 7 ∧
      (∀ d ∈ planDays p, (dayMeals d).length = 3) ∧
      getField p "totalCalories" =
        some (.num ((dailyCaloriesFor (exampleRequest 3) : ℚ))) ∧
      lookupLast (planInsertFromGenerated none p) "ai_generated" =
        some (.bool true) :=
  ⟨rfl, rfl,
   apikey_missing_fallback none (.ok "ignored") (exampleRequest 3) rfl rfl⟩

/-- Claim C9: every day of the fallback plan carries exactly
min(mealsPerDay, 5) meals, whose types are the slate
breakfast/lunch/dinner plus one snack above 3 and a second snack above 4,
truncated to mealsPerDay — so 6 requested meals still yield 5. -/
theorem fallback_meal_slate :
    ∀ (dc : ℚ) (prefs : DietPreferences) (profile : UserProfile)
      (day : DayPlan),
      day ∈ (buildFallbackPlan dc prefs profile).meals →
      day.meals.length = min prefs.mealsPerDay 5 ∧
      day.meals.map (fun m => m.mealType) = specMealSlate prefs.mealsPerDay := by
  intro dc prefs profile day hday
  simp only [buildFallbackPlan, List.mem_map] at hday
  obtain ⟨⟨i, dn⟩, -, rfl⟩ := hday
  simp only [mkFallbackDay]
  constructor
  · rw [List.length_map, List.length_take]
    unfold fallbackMealTypes
    split_ifs <;> simp <;> omega
  · rw [List.map_map]
    have hcomp : ((fun m : GeneratedMeal => m.mealType) ∘
        mkFallbackMeal (jsRound (dc / (prefs.mealsPerDay : ℚ))) prefs i) =
        fun mt => mt := rfl
    rw [hcomp, List.map_id']
    unfold specMealSlate fallbackMealTypes
    rfl

/-- Witness for `fallback_meal_slate`: the first day of a six-meal
fallback plan has five meals, in the slate order ending with two snacks. -/
theorem fallback_meal_slate_witness :
    c9Day ∈ c9Plan.meals ∧
    c9Day.meals.length = min (exampleRequest 6).preferences.mealsPerDay 5 ∧
    c9Day.meals.map (fun m => m.mealType) =
      specMealSlate (exampleRequest 6).preferences.mealsPerDay := by
  have hmem : c9Day ∈ c9Plan.meals := List.Mem.head _
  exact ⟨hmem,
    (fallback_meal_slate 2000 (exampleRequest 6).preferences exampleProfileC4
      c9Day hmem).1,
    (fallback_meal_slate 2000 (exampleRequest 6).preferences exampleProfileC4
      c9Day hmem).2⟩

/-- Claim C10: with no environment key, an empty environment key, or the
key explicitly configured as the literal placeholder `demo-key`, the model
client raises the missing-key error regardless of the network oracle —
that is, before any network request is attempted. -/
theorem apikey_guard :
    (∀ net : Except String String,
      makeRequest (resolveApiKey none) net = .error "API_KEY_MISSING") ∧
    (∀ net : Except String String,
      makeRequest (resolveApiKey (some "")) net = .error "API_KEY_MISSING") ∧
    (∀ net : Except String String,
      makeRequest (resolveApiKey (some "demo-key")) net =
        .error "API_KEY_MISSING") :=
  ⟨fun _ => rfl, fun _ => rfl, fun _ => rfl⟩

/-- Claim C3: the plan validator rejects any parsed object whose days
sequence has length other than 7 (part 1); rejects any object in which
some day has an empty meals list (part 2); and accepts any 7-day object
whose days all carry a non-empty meals list of meals with a non-empty
name, a non-empty mealType, and a numeric calories value, all other
fields absent or not (part 3).  The Bool result makes any single
violation reject the whole plan. -/
theorem validator_shape_checks :
    (∀ (p : JsonValue) (days : List JsonValue),
      getField p "meals" = some (.arr days) → days.length ≠ 7 →
      validateDietPlanStructure p = false) ∧
    (∀ (p : JsonValue) (days : List JsonValue) (d : JsonValue),
      getField p "meals" = some (.arr days) → d ∈ days →
      getField d "meals" = some (.arr []) →
      validateDietPlanStructure p = false) ∧
    (∀ (p : JsonValue) (days : List JsonValue),
      getField p "meals" = some (.arr days) → days.length = 7 →
      days.all acceptDayOk = true →
      validateDietPlanStructure p = true) := by
  refine ⟨?_, ?_, ?_⟩
  · intro p days hm hlen
    unfold validateDietPlanStructure
    rw [hm]
    simp only [asArray]
    have hd : decide (days.length = 7) = false := by simp [hlen]
    rw [hd]
    simp
  · intro p days d hm hd hempty
    unfold validateDietPlanStructure
    rw [hm]
    simp only [asArray]
    have hda : dayOk d = false := by
      unfold dayOk
      rw [hempty]
      simp [asArray]
    have hall : days.all dayOk = false := by
      cases hAll : days.all dayOk
      · rfl
      · have := List.all_eq_true.mp hAll d hd
        rw [hda] at this
        cases this
    rw [hall]
    simp
  · intro p days hm hlen hall
    obtain ⟨fields, rfl⟩ := obj_of_getField hm
    unfold validateDietPlanStructure
    rw [hm]
    simp only [asArray, Bool.and_eq_true]
    refine ⟨⟨rfl, rfl⟩, by simp [hlen], ?_⟩
    rw [List.all_eq_true]
    intro d hd
    have hday := List.all_eq_true.mp hall d hd
    unfold acceptDayOk at hday
    unfold dayOk
    rcases hdm : asArray (getField d "meals") with _ | ms
    · rw [hdm] at hday
      simp at hday
    · rw [hdm] at hday
      simp only [Bool.and_eq_true] at hday
      obtain ⟨hlen2, hms⟩ := hday
      obtain ⟨dfields, rfl⟩ := obj_of_getField (asArray_eq_some hdm)
      simp only [Bool.and_eq_true]
      refine ⟨rfl, hlen2, ?_⟩
      rw [List.all_eq_true] at hms ⊢
      intro meal hmeal
      have h3 := hms meal hmeal
      unfold acceptMealOk at h3
      unfold mealFieldsOk
      simp only [Bool.and_eq_true] at h3 ⊢
      obtain ⟨⟨hn, ht⟩, hc⟩ := h3
      rcases hnm : getField meal "name" with _ | v
      · rw [hnm] at hn
        simp at hn
      · obtain ⟨mfields, rfl⟩ := obj_of_getField hnm
        rw [hnm] at hn
        refine ⟨⟨⟨rfl, ?_⟩, ?_⟩, ?_⟩
        · cases v <;> simp_all [optTruthy, jsTruthy]
        · rcases htm : getField (JsonValue.obj mfields) "mealType" with _ | w
          · rw [htm] at ht
            simp at ht
          · rw [htm] at ht
            cases w <;> simp_all [optTruthy, jsTruthy]
        · rcases hcm : getField (JsonValue.obj mfields) "calories" with _ | w
          · rw [hcm] at hc
            simp at hc
          · rw [hcm] at hc
            cases w <;> simp_all

/-- Witness for `validator_shape_checks`: a 6-day object is rejected, a
7-day object with empty day 3 is rejected, and a 7-day object of minimal
meals is accepted. -/
theorem validator_shape_checks_witness :
    (getField c3Plan6 "meals" = some (.arr (List.replicate 6 c3GoodDay)) ∧
     (List.replicate 6 c3GoodDay).length ≠ 7 ∧
     validateDietPlanStructure c3Plan6 = false) ∧
    (getField c3PlanEmptyDay3 "meals" = some (.arr
       [c3GoodDay, c3GoodDay, c3EmptyDay, c3GoodDay, c3GoodDay, c3GoodDay,
        c3GoodDay]) ∧
     c3EmptyDay ∈
       [c3GoodDay, c3GoodDay, c3EmptyDay, c3GoodDay, c3GoodDay, c3GoodDay,
        c3GoodDay] ∧
     getField c3EmptyDay "meals" = some (.arr []) ∧
     validateDietPlanStructure c3PlanEmptyDay3 = false) ∧
    (getField c3MinimalPlan "meals" =
       some (.arr (List.replicate 7 c3GoodDay)) ∧
     (List.replicate 7 c3GoodDay).length = 7 ∧
     (List.replicate 7 c3GoodDay).all acceptDayOk = true ∧
     validateDietPlanStructure c3MinimalPlan = true) := by
  have hmem : c3EmptyDay ∈
      [c3GoodDay, c3GoodDay, c3EmptyDay, c3GoodDay, c3GoodDay, c3GoodDay,
       c3GoodDay] :=
    List.Mem.tail _ (List.Mem.tail _ (List.Mem.head _))
  exact ⟨⟨rfl, by decide,
      validator_shape_checks.1 c3Plan6 _ rfl (by decide)⟩,
    ⟨rfl, hmem, rfl,
      validator_shape_checks.2.1 c3PlanEmptyDay3 _ c3EmptyDay rfl hmem rfl⟩,
    ⟨rfl, by decide, rfl,
      validator_shape_checks.2.2 c3MinimalPlan _ rfl (by decide) rfl⟩⟩

end NutriPlan
